import Mathlib

/-!
# ublox_gps node: a shallow embedding of `src/ublox_gps/src/node.cpp`

The node translates `NavPVT` records of a u-blox receiver into ROS fix and
velocity messages (`publishNavPVT`), reports the last fix to the diagnostics (`fix_diagnostic`),
polls aiding data on a timer (`pollMessages`), and brings the receiver up in `main`: parameter checks,
transport selection, the configuration requests, the subscriptions.

Conventions of the embedding.

* Machine integers are `Nat` / `Int`; where the C++ arithmetic is done in a
  fixed width the wrap-around is written out (`wrapInt32`, `% 256`, `% 2 ^ 32`).
* `double` values are exact rationals (`ℚ`): rounding is not modelled, so the
  statements about published values are statements about the arithmetic the
  code writes down.
* Effects (transport, receiver requests, subscriptions) are recorded as a list
  of `Action`s in program order; the answers of the outside world are the
  fields of `World`.
* Constants of the message headers (`ublox_msgs`), which are not part of the
  source file, are parameters gathered in `NavPVTConsts`, `NavStatusConsts`
  and `GnssConsts`.
-/

namespace ublox

/-! ## Machine integers -/

/-- Two's-complement wrap of an integer into the range of `int32_t`. -/
def wrapInt32 (x : Int) : Int := (x + 2 ^ 31) % 2 ^ 32 - 2 ^ 31

/-- Range of `int32_t`. -/
def isInt32 (x : Int) : Prop := -(2 ^ 31) ≤ x ∧ x < 2 ^ 31

instance (x : Int) : Decidable (isInt32 x) := by
  unfold isInt32; infer_instance

/-! ## Navigation record and the messages derived from it -/

/-- The fields of `ublox_msgs::NavPVT` that `node.cpp` reads.  `fixType` and
`flags` are `uint8`, `hAcc`, `vAcc`, `sAcc`, `iTOW` are `uint32`, the
remaining ones `int32`. -/
structure NavPVT where
  iTOW : Nat
  nano : Int
  fixType : Nat
  flags : Nat
  numSV : Nat
  lon : Int
  lat : Int
  height : Int
  hMSL : Int
  hAcc : Nat
  vAcc : Nat
  velN : Int
  velE : Int
  velD : Int
  sAcc : Nat
deriving DecidableEq, Repr

/-- Every field of the record is in the range of its C++ type. -/
def NavPVT.wf (m : NavPVT) : Prop :=
  m.iTOW < 2 ^ 32 ∧ isInt32 m.nano ∧ m.fixType < 256 ∧ m.flags < 256 ∧
  m.numSV < 256 ∧ isInt32 m.lon ∧ isInt32 m.lat ∧ isInt32 m.height ∧
  isInt32 m.hMSL ∧ m.hAcc < 2 ^ 32 ∧ m.vAcc < 2 ^ 32 ∧ isInt32 m.velN ∧
  isInt32 m.velE ∧ isInt32 m.velD ∧ m.sAcc < 2 ^ 32

instance (m : NavPVT) : Decidable m.wf := by
  unfold NavPVT.wf; infer_instance

/-- The `uint8` constants of `NavPVT.msg` used by `publishNavPVT`; the message
definition is not in the source tree, so their values are parameters. -/
structure NavPVTConsts where
  FLAGS_GNSS_FIX_OK : Nat
  CARRIER_PHASE_FIXED : Nat
  FIX_TYPE_2D : Nat

/-- The status constants of `sensor_msgs::NavSatStatus`, by name. -/
inductive NavSatStatus where
  | STATUS_NO_FIX
  | STATUS_FIX
  | STATUS_SBAS_FIX
  | STATUS_GBAS_FIX
deriving DecidableEq, Repr

/-- The covariance-type constants of `sensor_msgs::NavSatFix`, by name. -/
inductive CovarianceType where
  | COVARIANCE_TYPE_UNKNOWN
  | COVARIANCE_TYPE_APPROXIMATED
  | COVARIANCE_TYPE_DIAGONAL_KNOWN
  | COVARIANCE_TYPE_KNOWN
deriving DecidableEq, Repr

/-- The part of `sensor_msgs::NavSatFix` that `publishNavPVT` fills in (the
header is left out).  `position_covariance` is the row-major 3x3 array. -/
structure NavSatFix where
  latitude : ℚ
  longitude : ℚ
  altitude : ℚ
  status : NavSatStatus
  service : Int
  position_covariance : List ℚ
  position_covariance_type : CovarianceType

/-- The part of `geometry_msgs::TwistWithCovarianceStamped` that
`publishNavPVT` fills in.  `covariance` is the row-major 6x6 array. -/
structure TwistWithCovariance where
  linear_x : ℚ
  linear_y : ℚ
  linear_z : ℚ
  angular_x : ℚ
  angular_y : ℚ
  angular_z : ℚ
  covariance : List ℚ

/-- What one call of `publishNavPVT` hands to its three publishers, and the
record it stores in `last_nav_pos`. -/
structure NavPVTOutput where
  navpvt : NavPVT
  fix : NavSatFix
  velocity : TwistWithCovariance
  last_nav_pos : NavPVT

/-- The function `publishNavPVT(const ublox_msgs::NavPVT& m)`.
`fix_status_service` is the global of that name.  Arrays of a freshly
constructed ROS message are zero-filled. -/
def publishNavPVT (K : NavPVTConsts) (fix_status_service : Int) (m : NavPVT) :
    NavPVTOutput :=
  -- bool fixOk = m.flags & m.FLAGS_GNSS_FIX_OK;
  let fixOk : Bool := (m.flags &&& K.FLAGS_GNSS_FIX_OK) != 0
  -- uint8_t cpSoln = m.flags & m.CARRIER_PHASE_FIXED;
  let cpSoln : Nat := (m.flags &&& K.CARRIER_PHASE_FIXED) % 256
  let status : NavSatStatus :=
    if fixOk && decide (m.fixType ≥ K.FIX_TYPE_2D) then
      if cpSoln = K.CARRIER_PHASE_FIXED then NavSatStatus.STATUS_GBAS_FIX
      else NavSatStatus.STATUS_FIX
    else NavSatStatus.STATUS_NO_FIX
  -- calculate covariance (convert from mm to m too)
  let stdH : ℚ := (m.hAcc : ℚ) / 1000
  let stdV : ℚ := (m.vAcc : ℚ) / 1000
  let cov3 : List ℚ :=
    (((List.replicate 9 (0 : ℚ)).set 0 (stdH * stdH)).set 4 (stdH * stdH)).set 8
      (stdV * stdV)
  let fix : NavSatFix :=
    { latitude := (m.lat : ℚ) * 1e-7
      longitude := (m.lon : ℚ) * 1e-7
      altitude := (m.height : ℚ) * 1e-3
      status := status
      service := fix_status_service
      position_covariance := cov3
      position_covariance_type := CovarianceType.COVARIANCE_TYPE_DIAGONAL_KNOWN }
  -- const double covSpeed = pow(m.sAcc * 1e-3, 2);
  let covSpeed : ℚ := ((m.sAcc : ℚ) * 1e-3) ^ 2
  let cols : Nat := 6
  let cov6 : List ℚ :=
    ((((List.replicate 36 (0 : ℚ)).set (cols * 0 + 0) covSpeed).set (cols * 1 + 1)
      covSpeed).set (cols * 2 + 2) covSpeed).set (cols * 3 + 3) (-1)
  let velocity : TwistWithCovariance :=
    { linear_x := (m.velE : ℚ) * 1e-3
      linear_y := (m.velN : ℚ) * 1e-3
      -- `-m.velD` is evaluated in `int` before the conversion to `double`
      linear_z := ((wrapInt32 (-m.velD) : Int) : ℚ) * 1e-3
      angular_x := 0
      angular_y := 0
      angular_z := 0
      covariance := cov6 }
  { navpvt := m, fix := fix, velocity := velocity, last_nav_pos := m }

/-! ## The aiding-data poll timer -/

/-- The three `AID` messages polled by `pollMessages`. -/
inductive AidMessage where
  | ALM
  | EPH
  | HUI
deriving DecidableEq, Repr

/-- One call of `gps.poll(class, id, payload)`; the overload without a payload
argument sends the empty payload. -/
structure Poll where
  msg : AidMessage
  payload : List Nat
deriving DecidableEq, Repr

/-- The function `pollMessages(const ros::TimerEvent&)`.  The static one-byte
vector `payload` is threaded through as `payload0`; `enabled` is the global
map of that name (a key that was never set reads as `false`).  Returns the
polls sent, in order, and the value of `payload[0]` left for the next call. -/
def pollMessages (enabled : String → Bool) (payload0 : Nat) : List Poll × Nat :=
  let alm : List Poll :=
    if enabled "aid_alm" then [{ msg := AidMessage.ALM, payload := [payload0] }] else []
  let eph : List Poll :=
    if enabled "aid_eph" then [{ msg := AidMessage.EPH, payload := [payload0] }] else []
  let hui : List Poll :=
    if enabled "aid_hui" then [{ msg := AidMessage.HUI, payload := [] }] else []
  -- payload[0]++ on a uint8_t
  let p : Nat := (payload0 + 1) % 256
  let p : Nat := if p > 32 then 1 else p
  (alm ++ eph ++ hui, p)

/-- Value of `payload[0]` when the timer fires for the `n`-th time
(`n = 0, 1, ...`); the vector is constructed as `payload(1, 1)`.  `enabled n`
is the content of the map at that tick. -/
def payloadAtTick (enabled : Nat → String → Bool) : Nat → Nat
  | 0 => 1
  | n + 1 => (pollMessages (enabled n) (payloadAtTick enabled n)).2

/-- The polls sent by the `n`-th timer tick. -/
def pollsAtTick (enabled : Nat → String → Bool) (n : Nat) : List Poll :=
  (pollMessages (enabled n) (payloadAtTick enabled n)).1

/-! ## Startup: parameters, outside world, recorded actions -/

/-- The enumeration `DynamicModel` of `gps.h`, by numeric value. -/
abbrev DynamicModel := Nat

/-- The enumeration `FixMode` of `gps.h`, by numeric value. -/
abbrev FixMode := Nat

/-- One `ublox_msgs::CfgGNSS_Block`; `flags` is `uint32`, the rest `uint8`. -/
structure CfgGNSS_Block where
  gnssId : Nat
  resTrkCh : Nat
  maxTrkCh : Nat
  reserved1 : Nat
  flags : Nat
deriving DecidableEq, Repr

/-- The message `ublox_msgs::CfgGNSS`. -/
structure CfgGNSS where
  msgVer : Nat
  numTrkChHw : Nat
  numTrkChUse : Nat
  numConfigBlocks : Nat
  blocks : List CfgGNSS_Block
deriving DecidableEq, Repr

/-- The constants of `CfgGNSS_Block.msg` used by `main`; the message
definition is not in the source tree, so their values are parameters. -/
structure GnssConsts where
  GNSS_ID_GPS : Nat
  GNSS_ID_SBAS : Nat
  GNSS_ID_GALILEO : Nat
  GNSS_ID_BEIDOU : Nat
  GNSS_ID_IMES : Nat
  GNSS_ID_QZSS : Nat
  GNSS_ID_GLONASS : Nat
  RES_TRK_CH_GPS : Nat
  RES_TRK_CH_QZSS : Nat
  RES_TRK_CH_GLONASS : Nat
  MAX_TRK_CH_MAJOR_MIN : Nat
  MAX_TRK_CH_GPS : Nat
  MAX_TRK_CH_QZSS : Nat
  MAX_TRK_CH_GLONASS : Nat
  SIG_CFG_GPS_L1CA : Nat
  SIG_CFG_SBAS_L1CA : Nat
  SIG_CFG_GALILEO_E1OS : Nat
  SIG_CFG_BEIDOU_B1I : Nat
  SIG_CFG_IMES_L1 : Nat
  SIG_CFG_GLONASS_L1OF : Nat

/-- The seven constellation identifiers, in the order `main` writes them for
`ublox_version >= 8`. -/
def GnssConsts.ids (K : GnssConsts) : List Nat :=
  [K.GNSS_ID_GPS, K.GNSS_ID_SBAS, K.GNSS_ID_GALILEO, K.GNSS_ID_BEIDOU,
   K.GNSS_ID_IMES, K.GNSS_ID_QZSS, K.GNSS_ID_GLONASS]

/-- The values `main` has read from the parameter server (defaults applied);
`toggles` is the raw lookup of the per-message booleans, `none` when unset. -/
structure Params where
  device : String
  baudrate : Int
  rate : Int
  enable_gps : Bool
  enable_sbas : Bool
  enable_galileo : Bool
  enable_beidou : Bool
  enable_imes : Bool
  enable_qzss : Bool
  qzss_sig_cfg : Int
  enable_glonass : Bool
  enable_ppp : Bool
  dynamic_model : String
  fix_mode : String
  dr_limit : Int
  ublox_version : Int
  toggles : String → Option Bool

/-- Everything `main` does to the transport, the receiver and the ROS event
loop, in program order.  Logging and the diagnostic updater are not recorded. -/
inductive Action where
  | resolve (host port : String)
  | connect (host port : String)
  | openSerial (device : String)
  | setBaudrate (baudrate : Int)
  | initGps
  | pollMonVER
  | setMeasRate (meas_rate : Int)
  | setPPPEnabled (enable : Bool)
  | setDynamicModel (model : DynamicModel)
  | setFixMode (mode : FixMode)
  | setDeadReckonLimit (limit : Int)
  | pollCfgGNSS
  | configure (cfg : CfgGNSS)
  | subscribe (message : String) (rate : Nat)
  | createTimer
  | spin
  | close
deriving DecidableEq, Repr

/-- The answers of everything outside `node.cpp`: the two string parsers of
`utils.h` (`none` when they throw), name resolution, connect and serial open
(`false` when they throw), `gps.isInitialized()`, and the receiver's answer to
each request (`false`, for the read `none`, when the request fails). -/
structure World where
  modelFromString : String → Option DynamicModel
  fixModeFromString : String → Option FixMode
  resolve : String → String → Bool
  connect : String → String → Bool
  openSerial : String → Bool
  isInitialized : Bool
  pollMonVER : Bool
  setMeasRate : Int → Bool
  setPPPEnabled : Bool → Bool
  setDynamicModel : DynamicModel → Bool
  setFixMode : FixMode → Bool
  setDeadReckonLimit : Int → Bool
  pollCfgGNSS : Option CfgGNSS
  configure : CfgGNSS → Bool

/-- The `ROS_ERROR` sites of `main` that are followed by `return 1`. -/
inductive StartupError where
  | invalidRate
  | invalidDrLimit
  | invalidSettings
  | couldNotResolve
  | couldNotConnect
  | unsupportedProtocol
  | couldNotOpenSerial
deriving DecidableEq, Repr

/-- The values `main` derives from the parameters before touching a device. -/
structure Settings where
  meas_rate : Int
  dmodel : DynamicModel
  fmode : FixMode
deriving DecidableEq, Repr

/-! ## Startup, lines 255-275: parameter checks -/

/-- The checks of `main` between reading the parameters and opening the
device: `rate`, then `dr_limit`, then the two enumeration strings (the second
parser is not called when the first one throws). -/
def checkSettings (P : Params) (W : World) : Except StartupError Settings :=
  if P.rate ≤ 0 then Except.error StartupError.invalidRate
  else
    -- measurement rate param for ublox, units of ms
    let meas_rate : Int := Int.tdiv 1000 P.rate
    if P.dr_limit < 0 ∨ P.dr_limit > 255 then Except.error StartupError.invalidDrLimit
    else
      match W.modelFromString P.dynamic_model with
      | none => Except.error StartupError.invalidSettings
      | some dmodel =>
        match W.fixModeFromString P.fix_mode with
        | none => Except.error StartupError.invalidSettings
        | some fmode => Except.ok { meas_rate := meas_rate, dmodel := dmodel, fmode := fmode }

/-! ## Startup, lines 291-348: transport selection -/

/-- Consume the literal `lit` at the front of `s`. -/
def dropLit : List Char → List Char → Option (List Char)
  | [], s => some s
  | _ :: _, [] => none
  | a :: lit, c :: s => if a = c then dropLit lit s else none

/-- The last alternative tried for `(.+):(\d+)`: a host of the single
character `c`, then `:`, then one or more digits up to the end of the input. -/
def matchOneCharHost (c : Char) : List Char → Option (List Char × List Char)
  | [] => none
  | d :: port =>
    if d = ':' ∧ port ≠ [] ∧ port.all Char.isDigit = true then some ([c], port) else none

/-- The tail `(.+):(\d+)` of the device pattern matched against all of the
input: `.+` is greedy, so the longest host is tried first and the one-character
host last.  Returns the two captures. -/
def matchHostPort : List Char → Option (List Char × List Char)
  | [] => none
  | c :: rest =>
    match matchHostPort rest with
    | some (host, port) => some (c :: host, port)
    | none => matchOneCharHost c rest

/-- One alternative of `(tcp|udp)` followed by `://(.+):(\d+)`. -/
def matchProto (proto : String) (device : List Char) :
    Option (String × String × String) :=
  match dropLit proto.toList device with
  | none => none
  | some afterProto =>
    match dropLit "://".toList afterProto with
    | none => none
    | some hostPort =>
      match matchHostPort hostPort with
      | none => none
      | some (host, port) => some (proto, String.mk host, String.mk port)

/-- The call `boost::regex_match(device, match, boost::regex("(tcp|udp)://(.+):(\d+)"))`:
`none` when the whole string does not match, otherwise the captures
`match[1]`, `match[2]`, `match[3]`. -/
def regexMatchDevice (device : String) : Option (String × String × String) :=
  match matchProto "tcp" device.toList with
  | some m => some m
  | none => matchProto "udp" device.toList

/-- Lines 291-348 of `main`: the actions performed on the transport, and the
error when this part ends in `return 1`. -/
def openTransport (P : Params) (W : World) : List Action × Option StartupError :=
  match regexMatchDevice P.device with
  | some (proto, host, port) =>
    if proto = "tcp" then
      if W.resolve host port then
        if W.connect host port then
          ([Action.resolve host port, Action.connect host port, Action.initGps], none)
        else
          ([Action.resolve host port, Action.connect host port],
            some StartupError.couldNotConnect)
      else ([Action.resolve host port], some StartupError.couldNotResolve)
    else ([], some StartupError.unsupportedProtocol)
  | none =>
    if W.openSerial P.device then
      ([Action.openSerial P.device, Action.setBaudrate P.baudrate, Action.initGps], none)
    else ([Action.openSerial P.device], some StartupError.couldNotOpenSerial)

/-! ## Startup, lines 350-502: the configuration requests -/

/-- The shape `if (!request) throw std::runtime_error(...); rest` inside the
`try` block: the request `a` is issued; when it fails nothing of `rest`
runs and the handler sets `setup_ok = false`. -/
def orThrow (a : Action) (ok : Bool) (rest : List Action × Bool) : List Action × Bool :=
  if ok then (a :: rest.1, rest.2) else ([a], false)

/-- The value stored in the `uint32` field `flags` by
`flags = enable | SIG_CFG_X` with a `uint32` constant. -/
def flagsOfConst (enable : Bool) (sigCfg : Nat) : Nat :=
  (enable.toNat ||| sigCfg) % 2 ^ 32

/-- The value stored in the `uint32` field `flags` by
`flags = enable_qzss | qzss_sig_cfg`, where `qzss_sig_cfg` is an `int`. -/
def flagsOfInt (enable : Bool) (sigCfg : Int) : Nat :=
  ((Int.lor (enable.toNat : Int) sigCfg) % 2 ^ 32).toNat

/-- The request written for `ublox_version == 7` (lines 401-412). -/
def cfgGNSSWrite7 (K : GnssConsts) (P : Params) (cfgGNSSRead : CfgGNSS) : CfgGNSS :=
  let block : CfgGNSS_Block :=
    { gnssId := K.GNSS_ID_GLONASS
      resTrkCh := 8
      maxTrkCh := 14
      reserved1 := 0
      flags := flagsOfConst P.enable_glonass K.SIG_CFG_GLONASS_L1OF }
  { msgVer := 0
    numTrkChHw := cfgGNSSRead.numTrkChHw
    numTrkChUse := cfgGNSSRead.numTrkChUse
    numConfigBlocks := 1
    blocks := [block] }

/-- The request written for `ublox_version >= 8` (lines 442-492).  Fields of a
block that the code does not assign keep the zero of a fresh message. -/
def cfgGNSSWrite8 (K : GnssConsts) (P : Params) (cfgGNSSRead : CfgGNSS) : CfgGNSS :=
  let gps_block : CfgGNSS_Block :=
    { gnssId := K.GNSS_ID_GPS, resTrkCh := K.RES_TRK_CH_GPS, maxTrkCh := K.MAX_TRK_CH_GPS,
      reserved1 := 0, flags := flagsOfConst P.enable_gps K.SIG_CFG_GPS_L1CA }
  let sbas_block : CfgGNSS_Block :=
    { gnssId := K.GNSS_ID_SBAS, resTrkCh := 0, maxTrkCh := K.MAX_TRK_CH_MAJOR_MIN,
      reserved1 := 0, flags := flagsOfConst P.enable_sbas K.SIG_CFG_SBAS_L1CA }
  let galileo_block : CfgGNSS_Block :=
    { gnssId := K.GNSS_ID_GALILEO, resTrkCh := 0, maxTrkCh := K.MAX_TRK_CH_MAJOR_MIN,
      reserved1 := 0, flags := flagsOfConst P.enable_galileo K.SIG_CFG_GALILEO_E1OS }
  let beidou_block : CfgGNSS_Block :=
    { gnssId := K.GNSS_ID_BEIDOU, resTrkCh := 0, maxTrkCh := K.MAX_TRK_CH_MAJOR_MIN,
      reserved1 := 0, flags := flagsOfConst P.enable_beidou K.SIG_CFG_BEIDOU_B1I }
  let imes_block : CfgGNSS_Block :=
    { gnssId := K.GNSS_ID_IMES, resTrkCh := 0, maxTrkCh := K.MAX_TRK_CH_MAJOR_MIN,
      reserved1 := 0, flags := flagsOfConst P.enable_imes K.SIG_CFG_IMES_L1 }
  let qzss_block : CfgGNSS_Block :=
    { gnssId := K.GNSS_ID_QZSS, resTrkCh := K.RES_TRK_CH_QZSS, maxTrkCh := K.MAX_TRK_CH_QZSS,
      reserved1 := 0, flags := flagsOfInt P.enable_qzss P.qzss_sig_cfg }
  let glonass_block : CfgGNSS_Block :=
    { gnssId := K.GNSS_ID_GLONASS, resTrkCh := K.RES_TRK_CH_GLONASS,
      maxTrkCh := K.MAX_TRK_CH_GLONASS, reserved1 := 0,
      flags := flagsOfConst P.enable_glonass K.SIG_CFG_GLONASS_L1OF }
  let blocks : List CfgGNSS_Block :=
    [gps_block, sbas_block, galileo_block, beidou_block, imes_block, qzss_block,
     glonass_block]
  { msgVer := 0
    numTrkChHw := cfgGNSSRead.numTrkChHw
    -- assigned from the read-back value, then overwritten
    numTrkChUse := 28
    numConfigBlocks := blocks.length % 256
    blocks := blocks }

/-- Lines 391-498 of `main`: the constellation read and write, chosen by
`ublox_version`. -/
def configureGnss (K : GnssConsts) (P : Params) (W : World) : List Action × Bool :=
  if P.ublox_version = 7 then
    match W.pollCfgGNSS with
    | none => ([Action.pollCfgGNSS], false)
    | some cfgGNSSRead =>
      let cfgGNSSWrite := cfgGNSSWrite7 K P cfgGNSSRead
      orThrow Action.pollCfgGNSS true
        (orThrow (Action.configure cfgGNSSWrite) (W.configure cfgGNSSWrite) ([], true))
  else if P.ublox_version ≥ 8 then
    match W.pollCfgGNSS with
    | none => ([Action.pollCfgGNSS], false)
    | some cfgGNSSRead =>
      let cfgGNSSWrite := cfgGNSSWrite8 K P cfgGNSSRead
      orThrow Action.pollCfgGNSS true
        (orThrow (Action.configure cfgGNSSWrite) (W.configure cfgGNSSWrite) ([], true))
  else ([], true)

/-- The `try` block of `main` (lines 351-502): the requests issued, in order,
and the value of `setup_ok` after it. -/
def applySettings (K : GnssConsts) (P : Params) (W : World) (S : Settings) :
    List Action × Bool :=
  if W.isInitialized then
    -- the answer to the MonVER poll only selects what is logged
    orThrow Action.pollMonVER true
      (orThrow (Action.setMeasRate S.meas_rate) (W.setMeasRate S.meas_rate)
        (orThrow (Action.setPPPEnabled P.enable_ppp) (W.setPPPEnabled P.enable_ppp)
          (orThrow (Action.setDynamicModel S.dmodel) (W.setDynamicModel S.dmodel)
            (orThrow (Action.setFixMode S.fmode) (W.setFixMode S.fmode)
              (orThrow (Action.setDeadReckonLimit P.dr_limit)
                (W.setDeadReckonLimit P.dr_limit) (configureGnss K P W))))))
  else ([], false)

/-! ## Startup, lines 504-606: subscriptions and the poll timer -/

/-- The call `param_nh.param(name, enabled[name], dflt)`: the stored value
when the parameter is set, the default otherwise. -/
def param (toggles : String → Option Bool) (name : String) (dflt : Bool) : Bool :=
  (toggles name).getD dflt

/-- Assignment `enabled[name] = value` on the global map. -/
def setEnabled (enabled : String → Bool) (name : String) (value : Bool) : String → Bool :=
  fun key => if key = name then value else enabled key

/-- A statement `if (enabled[name]) gps.subscribe<Message>(callback, rate);`. -/
def subscribeIf (enabled : String → Bool) (name message : String) (rate : Nat) :
    List Action :=
  if enabled name then [Action.subscribe message rate] else []

/-- The body of `if (setup_ok)` (lines 504-606): the final content of the map
`enabled`, and the subscriptions, the timer registration and the event loop in
program order. -/
def registerConsumers (P : Params) : (String → Bool) × List Action :=
  let t := P.toggles
  let en : String → Bool := fun _ => false
  let en := setEnabled en "all" (param t "all" false)
  let en := setEnabled en "rxm" (param t "rxm" false)
  let en := setEnabled en "aid" (param t "aid" false)
  let en := setEnabled en "nav_sol" (param t "nav_sol" true)
  let a1 := subscribeIf en "nav_sol" "NavSOL" 1
  let en := setEnabled en "nav_pvt" (param t "nav_pvt" true)
  let a2 := subscribeIf en "nav_pvt" "NavPVT" 1
  let en := setEnabled en "nav_status" (param t "nav_status" true)
  let a3 := subscribeIf en "nav_status" "NavSTATUS" 1
  let en := setEnabled en "nav_svinfo" (param t "nav_svinfo" (en "all"))
  let a4 := subscribeIf en "nav_svinfo" "NavSVINFO" 20
  let en := setEnabled en "nav_clk" (param t "nav_clk" (en "all"))
  let a5 := subscribeIf en "nav_clk" "NavCLOCK" 1
  let en := setEnabled en "rxm_raw" (param t "rxm_raw" (en "all" || en "rxm"))
  let a6 := subscribeIf en "rxm_raw" (if P.ublox_version ≥ 8 then "RxmRAWX" else "RxmRAW") 1
  let en := setEnabled en "rxm_sfrb" (param t "rxm_sfrb" (en "all" || en "rxm"))
  let a7 := subscribeIf en "rxm_sfrb" (if P.ublox_version ≥ 8 then "RxmSFRBX" else "RxmSFRB") 1
  let en := setEnabled en "rxm_eph" (param t "rxm_eph" (en "all" || en "rxm"))
  let a8 := subscribeIf en "rxm_eph" "RxmEPH" 1
  let en := setEnabled en "rxm_alm" (param t "rxm_alm" (en "all" || en "rxm"))
  let a9 := subscribeIf en "rxm_alm" "RxmALM" 1
  let en := setEnabled en "nav_posllh" (param t "nav_posllh" true)
  let a10 := subscribeIf en "nav_posllh" "NavPOSLLH" 1
  let en := setEnabled en "nav_posecef" (param t "nav_posecef" true)
  let a11 := subscribeIf en "nav_posecef" "NavPOSECEF" 1
  let en := setEnabled en "nav_velned" (param t "nav_velned" true)
  let a12 := subscribeIf en "nav_velned" "NavVELNED" 1
  let en := setEnabled en "aid_alm" (param t "aid_alm" (en "all" || en "aid"))
  let a13 := subscribeIf en "aid_alm" "AidALM" 1
  let en := setEnabled en "aid_eph" (param t "aid_eph" (en "all" || en "aid"))
  let a14 := subscribeIf en "aid_eph" "AidEPH" 1
  let en := setEnabled en "aid_hui" (param t "aid_hui" (en "all" || en "aid"))
  let a15 := subscribeIf en "aid_hui" "AidHUI" 1
  (en, a1 ++ a2 ++ a3 ++ a4 ++ a5 ++ a6 ++ a7 ++ a8 ++ a9 ++ a10 ++ a11 ++ a12 ++ a13
        ++ a14 ++ a15 ++ [Action.createTimer, Action.spin])

/-! ## The function `main` -/

/-- Result of a run of `main`: the exit code, the error logged before an early
`return 1`, the recorded actions, and the final value of `setup_ok` (which is
initialised to `true`). -/
structure Outcome where
  exitCode : Int
  error : Option StartupError
  actions : List Action
  setup_ok : Bool
deriving DecidableEq, Repr

/-- The function `main`, from the parameter checks (line 255) to the end. -/
def main (K : GnssConsts) (P : Params) (W : World) : Outcome :=
  match checkSettings P W with
  | Except.error e => { exitCode := 1, error := some e, actions := [], setup_ok := true }
  | Except.ok S =>
    match openTransport P W with
    | (transport, some e) =>
      { exitCode := 1, error := some e, actions := transport, setup_ok := true }
    | (transport, none) =>
      let applied := applySettings K P W S
      let setup_ok := applied.2
      let consumers : List Action := if setup_ok then (registerConsumers P).2 else []
      let closing : List Action := if W.isInitialized then [Action.close] else []
      { exitCode := 0
        error := none
        actions := transport ++ applied.1 ++ consumers ++ closing
        setup_ok := setup_ok }

/-- The action is a request sent to the receiver. -/
def Action.isRequest : Action → Bool
  | Action.pollMonVER => true
  | Action.setMeasRate _ => true
  | Action.setPPPEnabled _ => true
  | Action.setDynamicModel _ => true
  | Action.setFixMode _ => true
  | Action.setDeadReckonLimit _ => true
  | Action.pollCfgGNSS => true
  | Action.configure _ => true
  | _ => false

/-- The action registers a long-lived consumer: a message subscription or the
poll timer. -/
def Action.isConsumer : Action → Bool
  | Action.subscribe _ _ => true
  | Action.createTimer => true
  | _ => false

/-- The action is a constellation write request. -/
def Action.isConfigure : Action → Bool
  | Action.configure _ => true
  | _ => false

/-- The action touches the transport: name resolution, socket connect, serial
open, or the hand-over of the opened channel to the `Gps` object. -/
def Action.isTransport : Action → Bool
  | Action.resolve _ _ => true
  | Action.connect _ _ => true
  | Action.openSerial _ => true
  | Action.setBaudrate _ => true
  | Action.initGps => true
  | _ => false

/-! ## Vocabulary of the specification -/

/-- The device string reads `scheme://host:port` with a non-empty host and a
port of one or more decimal digits. -/
def IsNetworkAddress (scheme device host port : String) : Prop :=
  device = scheme ++ "://" ++ host ++ ":" ++ port ∧ host ≠ "" ∧ port ≠ "" ∧
    port.toList.all Char.isDigit = true

/-- The device string matches the pattern `scheme://host:port` with scheme
`tcp` or `udp`. -/
def MatchesNetworkPattern (device : String) : Prop :=
  ∃ scheme host port : String,
    (scheme = "tcp" ∨ scheme = "udp") ∧ IsNetworkAddress scheme device host port

/-- The receiver's answer to the request `a`: `true` when the request
succeeds. -/
def World.answer (W : World) : Action → Bool
  | Action.pollMonVER => W.pollMonVER
  | Action.setMeasRate meas_rate => W.setMeasRate meas_rate
  | Action.setPPPEnabled enable => W.setPPPEnabled enable
  | Action.setDynamicModel model => W.setDynamicModel model
  | Action.setFixMode mode => W.setFixMode mode
  | Action.setDeadReckonLimit limit => W.setDeadReckonLimit limit
  | Action.pollCfgGNSS => W.pollCfgGNSS.isSome
  | Action.configure cfg => W.configure cfg
  | _ => true

/-- The constellation requests of the handshake: none for a version below 7,
otherwise the read and, built from what the read returned, the write. -/
def constellationRequests (K : GnssConsts) (P : Params) (W : World) : List Action :=
  if P.ublox_version = 7 then
    Action.pollCfgGNSS ::
      (match W.pollCfgGNSS with
       | some cfgGNSSRead => [Action.configure (cfgGNSSWrite7 K P cfgGNSSRead)]
       | none => [])
  else if P.ublox_version ≥ 8 then
    Action.pollCfgGNSS ::
      (match W.pollCfgGNSS with
       | some cfgGNSSRead => [Action.configure (cfgGNSSWrite8 K P cfgGNSSRead)]
       | none => [])
  else []

/-- The startup handshake in its fixed order: identity poll, measurement rate,
PPP flag, dynamic model, fix mode, dead-reckoning limit, then the
constellation read and write. -/
def handshakeOrder (K : GnssConsts) (P : Params) (W : World) (S : Settings) : List Action :=
  [Action.pollMonVER, Action.setMeasRate S.meas_rate, Action.setPPPEnabled P.enable_ppp,
   Action.setDynamicModel S.dmodel, Action.setFixMode S.fmode,
   Action.setDeadReckonLimit P.dr_limit] ++ constellationRequests K P W

/-- The sequencer of the specification run over a list of requests: each
request is issued in turn; a failed identity poll is passed over; the first
other request that fails is the last one issued and the result is failure. -/
def issueUntilFatal (W : World) : List Action → List Action × Bool
  | [] => ([], true)
  | a :: rest =>
    if a = Action.pollMonVER ∨ W.answer a = true then
      (a :: (issueUntilFatal W rest).1, (issueUntilFatal W rest).2)
    else ([a], false)

/-- The bitwise-or of an enable toggle, taken as 0 or 1, with a
signal-configuration mask, as the value of a `uint32` field. -/
def toggleOrMask (toggle : Bool) (mask : Int) : Nat :=
  ((Int.lor (if toggle then 1 else 0) mask) % 2 ^ 32).toNat

/-- The seven constellations with, for each, its identifier, its enable toggle
and its signal-configuration mask: the `SIG_CFG_*` default, or the configured
`qzss_sig_cfg` for QZSS. -/
def constellationTable (K : GnssConsts) (P : Params) : List (Nat × Bool × Int) :=
  [(K.GNSS_ID_GPS, P.enable_gps, (K.SIG_CFG_GPS_L1CA : Int)),
   (K.GNSS_ID_SBAS, P.enable_sbas, (K.SIG_CFG_SBAS_L1CA : Int)),
   (K.GNSS_ID_GALILEO, P.enable_galileo, (K.SIG_CFG_GALILEO_E1OS : Int)),
   (K.GNSS_ID_BEIDOU, P.enable_beidou, (K.SIG_CFG_BEIDOU_B1I : Int)),
   (K.GNSS_ID_IMES, P.enable_imes, (K.SIG_CFG_IMES_L1 : Int)),
   (K.GNSS_ID_QZSS, P.enable_qzss, P.qzss_sig_cfg),
   (K.GNSS_ID_GLONASS, P.enable_glonass, (K.SIG_CFG_GLONASS_L1OF : Int))]

/-! ## The fix diagnostic -/

/-- The fix-type constants of `NavSTATUS.msg` compared against in
`fix_diagnostic`; the message definition is not in the source tree, so their
values are parameters. -/
structure NavStatusConsts where
  GPS_NO_FIX : Nat
  GPS_DEAD_RECKONING_ONLY : Nat
  GPS_2D_FIX : Nat
  GPS_3D_FIX : Nat
  GPS_GPS_DEAD_RECKONING_COMBINED : Nat
  GPS_TIME_ONLY_FIX : Nat

/-- The six fix-type codes, in the order `fix_diagnostic` tests them. -/
def NavStatusConsts.codes (K : NavStatusConsts) : List Nat :=
  [K.GPS_NO_FIX, K.GPS_DEAD_RECKONING_ONLY, K.GPS_2D_FIX, K.GPS_3D_FIX,
   K.GPS_GPS_DEAD_RECKONING_COMBINED, K.GPS_TIME_ONLY_FIX]

/-- The level constants of `diagnostic_msgs::DiagnosticStatus`, by name. -/
inductive DiagnosticLevel where
  | OK
  | WARN
  | ERROR
  | STALE
deriving DecidableEq, Repr

/-- The part of `diagnostic_updater::DiagnosticStatusWrapper` that
`fix_diagnostic` touches: the level, the message, and the key/value pairs
appended by `add`. -/
structure DiagnosticStatusWrapper where
  level : DiagnosticLevel
  message : String
  values : List (String × Int)
deriving DecidableEq, Repr

/-- The function `fix_diagnostic(DiagnosticStatusWrapper& stat)`; the global
`last_nav_pos` is an argument, the updated `stat` is the result. -/
def fix_diagnostic (K : NavStatusConsts) (last_nav_pos : NavPVT)
    (stat : DiagnosticStatusWrapper) : DiagnosticStatusWrapper :=
  -- check the last message, convert to diagnostic
  let stat : DiagnosticStatusWrapper :=
    if last_nav_pos.fixType = K.GPS_NO_FIX then
      { stat with level := DiagnosticLevel.ERROR, message := "No fix" }
    else if last_nav_pos.fixType = K.GPS_DEAD_RECKONING_ONLY then
      { stat with level := DiagnosticLevel.WARN, message := "Dead reckoning only" }
    else if last_nav_pos.fixType = K.GPS_2D_FIX then
      { stat with level := DiagnosticLevel.OK, message := "2D fix" }
    else if last_nav_pos.fixType = K.GPS_3D_FIX then
      { stat with level := DiagnosticLevel.OK, message := "3D fix" }
    else if last_nav_pos.fixType = K.GPS_GPS_DEAD_RECKONING_COMBINED then
      { stat with level := DiagnosticLevel.OK, message := "GPS and dead reckoning combined" }
    else if last_nav_pos.fixType = K.GPS_TIME_ONLY_FIX then
      { stat with level := DiagnosticLevel.WARN, message := "Time fix only" }
    else stat
  -- append last fix position
  { stat with
    values := stat.values ++
      [("iTOW", (last_nav_pos.iTOW : Int)), ("lon", last_nav_pos.lon),
       ("lat", last_nav_pos.lat), ("height", last_nav_pos.height),
       ("hMSL", last_nav_pos.hMSL), ("hAcc", (last_nav_pos.hAcc : Int)),
       ("vAcc", (last_nav_pos.vAcc : Int)), ("numSV", (last_nav_pos.numSV : Int))] }

/-! ## Startup, lines 277-289: the frequency and time-stamp diagnostics -/

/-- A `double` quotient `a / b`: the exact quotient, and `none` when the
divisor is zero, where the IEEE result is an infinity or a NaN and not a
number. -/
def divDouble (a b : ℚ) : Option ℚ :=
  if b = 0 then none else some (a / b)

/-- The arguments of `diagnostic_updater::FrequencyStatusParam`: the two
frequency bounds (read through pointers), the tolerance and the window size. -/
structure FrequencyStatusParam where
  min_freq : Option ℚ
  max_freq : Option ℚ
  tolerance : ℚ
  window_size : Nat

/-- The arguments of `diagnostic_updater::TimeStampStatusParam`: the smallest
and the largest acceptable difference, in seconds, between a message time
stamp and the time of its arrival. -/
structure TimeStampStatusParam where
  min_acceptable : ℚ
  max_acceptable : ℚ

/-- What `main` hands to the `TopicDiagnostic` of the topic `fix`. -/
structure TopicDiagnosticParams where
  target_freq : Option ℚ
  freq_param : FrequencyStatusParam
  time_param : TimeStampStatusParam

/-- Lines 281-289 of `main`, run once the parameter checks have produced the
settings `S`. -/
def topicDiagnostic (S : Settings) : TopicDiagnosticParams :=
  -- const double target_freq = 1000.0 / meas_rate;  actual update frequency
  let target_freq : Option ℚ := divDouble 1000.0 (S.meas_rate : ℚ)
  let min_freq := target_freq
  let max_freq := target_freq
  { target_freq := target_freq
    freq_param :=
      { min_freq := min_freq, max_freq := max_freq, tolerance := 0.05, window_size := 10 }
    time_param :=
      { min_acceptable := 0, max_acceptable := (S.meas_rate : ℚ) * 1e-3 * 0.05 } }

/-! ## Concrete inputs used to exercise the theorems -/

/-- The flag and fix-type values of the u-blox protocol description. -/
def exampleNavConsts : NavPVTConsts :=
  { FLAGS_GNSS_FIX_OK := 1, CARRIER_PHASE_FIXED := 128, FIX_TYPE_2D := 2 }

/-- A record with a carrier-phase-fixed 3D solution, the velocity of the
velocity example and the accuracies of the covariance example. -/
def exampleRecord : NavPVT :=
  { iTOW := 0, nano := 0, fixType := 3, flags := 129, numSV := 12, lon := 0, lat := 0,
    height := 0, hMSL := 0, hAcc := 2000, vAcc := 3000, velN := 500, velE := 1000,
    velD := 200, sAcc := 100 }

/-- The example record with the most negative down velocity an `int32` holds. -/
def overflowRecord : NavPVT := { exampleRecord with velD := -2147483648 }

/-- Identifier, channel and signal constants as in the u-blox protocol
description (all default signal masks 0x010000). -/
def exampleGnssConsts : GnssConsts :=
  { GNSS_ID_GPS := 0, GNSS_ID_SBAS := 1, GNSS_ID_GALILEO := 2, GNSS_ID_BEIDOU := 3,
    GNSS_ID_IMES := 4, GNSS_ID_QZSS := 5, GNSS_ID_GLONASS := 6,
    RES_TRK_CH_GPS := 8, RES_TRK_CH_QZSS := 0, RES_TRK_CH_GLONASS := 8,
    MAX_TRK_CH_MAJOR_MIN := 4, MAX_TRK_CH_GPS := 16, MAX_TRK_CH_QZSS := 3,
    MAX_TRK_CH_GLONASS := 14,
    SIG_CFG_GPS_L1CA := 65536, SIG_CFG_SBAS_L1CA := 65536, SIG_CFG_GALILEO_E1OS := 65536,
    SIG_CFG_BEIDOU_B1I := 65536, SIG_CFG_IMES_L1 := 65536, SIG_CFG_GLONASS_L1OF := 65536 }

/-- The default parameters of `main`, with `ublox_version` 8 in place of 6. -/
def exampleParams : Params :=
  { device := "/dev/ttyACM0", baudrate := 9600, rate := 4, enable_gps := true,
    enable_sbas := false, enable_galileo := false, enable_beidou := false,
    enable_imes := false, enable_qzss := false, qzss_sig_cfg := 65536,
    enable_glonass := false, enable_ppp := false, dynamic_model := "portable",
    fix_mode := "both", dr_limit := 0, ublox_version := 8, toggles := fun _ => none }

/-- A read-back constellation configuration without blocks. -/
def exampleRead : CfgGNSS :=
  { msgVer := 0, numTrkChHw := 32, numTrkChUse := 32, numConfigBlocks := 0, blocks := [] }

/-- A world in which every step succeeds. -/
def exampleWorld : World :=
  { modelFromString := fun _ => some 0, fixModeFromString := fun _ => some 3,
    resolve := fun _ _ => true, connect := fun _ _ => true, openSerial := fun _ => true,
    isInitialized := true, pollMonVER := true, setMeasRate := fun _ => true,
    setPPPEnabled := fun _ => true, setDynamicModel := fun _ => true,
    setFixMode := fun _ => true, setDeadReckonLimit := fun _ => true,
    pollCfgGNSS := some exampleRead, configure := fun _ => true }

/-- The settings `main` derives from `exampleParams` in `exampleWorld`. -/
def exampleSettings : Settings := { meas_rate := 250, dmodel := 0, fmode := 3 }

/-- A world in which the identity poll and the fix-mode request fail. -/
def fixModeFailsWorld : World :=
  { exampleWorld with pollMonVER := false, setFixMode := fun _ => false }

/-- The example parameters with a device string that starts with `udp://` and
has no port. -/
def udpNoPortParams : Params := { exampleParams with device := "udp://gps" }

/-- The example parameters with a TCP device address. -/
def tcpParams : Params := { exampleParams with device := "tcp://192.168.0.7:2101" }

/-- The example parameters with a UDP device address. -/
def udpParams : Params := { exampleParams with device := "udp://192.168.0.7:2101" }

/-- The example parameters with `ublox_version` 7. -/
def version7Params : Params := { exampleParams with ublox_version := 7 }

/-- The example parameters with `ublox_version` 6, the default. -/
def version6Params : Params := { exampleParams with ublox_version := 6 }

/-- The example parameters (QZSS disabled, version 8) with an odd
`qzss_sig_cfg`. -/
def qzssOddParams : Params := { exampleParams with qzss_sig_cfg := 1 }

/-- The fix-type codes of the u-blox protocol description. -/
def exampleStatusConsts : NavStatusConsts :=
  { GPS_NO_FIX := 0, GPS_DEAD_RECKONING_ONLY := 1, GPS_2D_FIX := 2, GPS_3D_FIX := 3,
    GPS_GPS_DEAD_RECKONING_COMBINED := 4, GPS_TIME_ONLY_FIX := 5 }

/-- A status as the updater could hand it to `fix_diagnostic`. -/
def exampleStat : DiagnosticStatusWrapper :=
  { level := DiagnosticLevel.STALE, message := "untouched", values := [] }

/-! ## Theorems about `publishNavPVT` -/

/-- The status written by `publishNavPVT`, with the truncation of `cpSoln` to
`uint8` resolved for a record whose `flags` is a byte. -/
theorem publishNavPVT_status (K : NavPVTConsts) (svc : Int) (m : NavPVT)
    (hflags : m.flags < 256) :
    (publishNavPVT K svc m).fix.status =
      if m.flags &&& K.FLAGS_GNSS_FIX_OK ≠ 0 ∧ m.fixType ≥ K.FIX_TYPE_2D then
        (if m.flags &&& K.CARRIER_PHASE_FIXED = K.CARRIER_PHASE_FIXED then
          NavSatStatus.STATUS_GBAS_FIX
        else NavSatStatus.STATUS_FIX)
      else NavSatStatus.STATUS_NO_FIX := by
  have hcp : (m.flags &&& K.CARRIER_PHASE_FIXED) % 256 = m.flags &&& K.CARRIER_PHASE_FIXED :=
    Nat.mod_eq_of_lt (lt_of_le_of_lt Nat.and_le_left hflags)
  simp only [publishNavPVT, hcp]
  by_cases h1 : m.flags &&& K.FLAGS_GNSS_FIX_OK = 0 <;>
    by_cases h2 : K.FIX_TYPE_2D ≤ m.fixType <;> simp [h1, h2]

/-- C1: the fix status published by `publishNavPVT` depends on the record only
through `flags` and `fixType`; it is `STATUS_NO_FIX` exactly when the
fix-valid flag is clear or the fix type is below 2D (so always when the flag
is clear); when the flag is set and the fix type is at least 2D it is
`STATUS_GBAS_FIX` if the carrier-phase-fixed bits are all set and `STATUS_FIX`
otherwise. -/
theorem C1_fix_status (K : NavPVTConsts) (svc : Int) (m : NavPVT) (hflags : m.flags < 256) :
    ((publishNavPVT K svc m).fix.status = NavSatStatus.STATUS_NO_FIX ↔
        ¬ (m.flags &&& K.FLAGS_GNSS_FIX_OK ≠ 0 ∧ m.fixType ≥ K.FIX_TYPE_2D)) ∧
    (m.flags &&& K.FLAGS_GNSS_FIX_OK = 0 →
        (publishNavPVT K svc m).fix.status = NavSatStatus.STATUS_NO_FIX) ∧
    (m.flags &&& K.FLAGS_GNSS_FIX_OK ≠ 0 → m.fixType ≥ K.FIX_TYPE_2D →
        (publishNavPVT K svc m).fix.status =
          if m.flags &&& K.CARRIER_PHASE_FIXED = K.CARRIER_PHASE_FIXED then
            NavSatStatus.STATUS_GBAS_FIX
          else NavSatStatus.STATUS_FIX) ∧
    (∀ (svc2 : Int) (m2 : NavPVT), m2.flags = m.flags → m2.fixType = m.fixType →
        (publishNavPVT K svc2 m2).fix.status = (publishNavPVT K svc m).fix.status) := by
  have hst := publishNavPVT_status K svc m hflags
  refine ⟨?_, ?_, ?_, ?_⟩
  · rw [hst]
    by_cases h : m.flags &&& K.FLAGS_GNSS_FIX_OK ≠ 0 ∧ m.fixType ≥ K.FIX_TYPE_2D
    · rw [if_pos h]
      constructor
      · intro hc
        split at hc <;> exact absurd hc (by decide)
      · intro hc
        exact absurd h hc
    · rw [if_neg h]
      exact ⟨fun _ => h, fun _ => rfl⟩
  · intro h1
    rw [hst, if_neg]
    exact fun hc => hc.1 h1
  · intro h1 h2
    rw [hst, if_pos ⟨h1, h2⟩]
  · intro svc2 m2 hf ht
    rw [hst, publishNavPVT_status K svc2 m2 (hf ▸ hflags), hf, ht]

/-- C1 exercised on the example record and on the same record with the
fix-valid flag cleared. -/
theorem C1_fix_status_witness :
    (publishNavPVT exampleNavConsts 1 exampleRecord).fix.status =
        NavSatStatus.STATUS_GBAS_FIX ∧
    (publishNavPVT exampleNavConsts 1 { exampleRecord with flags := 128 }).fix.status =
        NavSatStatus.STATUS_NO_FIX := by
  refine ⟨?_, ?_⟩
  · have h := (C1_fix_status exampleNavConsts 1 exampleRecord (by decide)).2.2.1
      (by decide) (by decide)
    rw [h]; decide
  · exact (C1_fix_status exampleNavConsts 1 { exampleRecord with flags := 128 }
      (by decide)).2.1 (by decide)

/-- Where the negation does not overflow, that is for every `int32` down
velocity other than the most negative one, the published linear velocity is
the ENU velocity in metres per second. -/
theorem publishNavPVT_velocity_of_ne_min (K : NavPVTConsts) (svc : Int) (m : NavPVT)
    (hD : isInt32 m.velD) (hmin : m.velD ≠ -2147483648) :
    (publishNavPVT K svc m).velocity.linear_x = (m.velE : ℚ) / 1000 ∧
    (publishNavPVT K svc m).velocity.linear_y = (m.velN : ℚ) / 1000 ∧
    (publishNavPVT K svc m).velocity.linear_z = -(m.velD : ℚ) / 1000 := by
  have hw : wrapInt32 (-m.velD) = -m.velD := by
    unfold isInt32 at hD
    unfold wrapInt32
    omega
  simp only [publishNavPVT, hw]
  refine ⟨?_, ?_, ?_⟩ <;> push_cast <;> norm_num <;> ring

/-- C5: on the well-formed record whose `velD` is -2147483648 the expression
`-m.velD` overflows `int`, and the published up component is -2147483.648 m/s,
not the negation 2147483.648 m/s of the down component; the east and north
components, and the velocity example (1.0, 0.5, -0.2), come out as stated. -/
theorem C5_velocity_up_overflow :
    overflowRecord.wf ∧
    (publishNavPVT exampleNavConsts 1 overflowRecord).velocity.linear_z =
      -(2147483648 : ℚ) / 1000 ∧
    (publishNavPVT exampleNavConsts 1 overflowRecord).velocity.linear_z ≠
      -(overflowRecord.velD : ℚ) / 1000 ∧
    (publishNavPVT exampleNavConsts 1 exampleRecord).velocity.linear_x = 1 ∧
    (publishNavPVT exampleNavConsts 1 exampleRecord).velocity.linear_y = 1 / 2 ∧
    (publishNavPVT exampleNavConsts 1 exampleRecord).velocity.linear_z = -(2 / 10) := by
  have hw : wrapInt32 (-(-2147483648)) = -2147483648 := by decide
  have hw2 : wrapInt32 (-200) = -200 := by decide
  refine ⟨by decide, ?_, ?_, ?_, ?_, ?_⟩
  · simp only [publishNavPVT, overflowRecord, hw]; norm_num
  · simp only [publishNavPVT, overflowRecord, hw]; norm_num
  · simp only [publishNavPVT, exampleRecord]; norm_num
  · simp only [publishNavPVT, exampleRecord]; norm_num
  · simp only [publishNavPVT, exampleRecord, hw2]; norm_num

/-- C6: the position covariance published by `publishNavPVT` is the row-major
3x3 matrix with (hAcc/1000)^2, (hAcc/1000)^2, (vAcc/1000)^2 on the diagonal
and zero elsewhere, its type is `COVARIANCE_TYPE_DIAGONAL_KNOWN`, and for
hAcc = 2000, vAcc = 3000 the diagonal is (4, 4, 9). -/
theorem C6_position_covariance (K : NavPVTConsts) (svc : Int) (m : NavPVT) :
    (publishNavPVT K svc m).fix.position_covariance =
      [((m.hAcc : ℚ) / 1000) ^ 2, 0, 0,
       0, ((m.hAcc : ℚ) / 1000) ^ 2, 0,
       0, 0, ((m.vAcc : ℚ) / 1000) ^ 2] ∧
    (publishNavPVT K svc m).fix.position_covariance_type =
      CovarianceType.COVARIANCE_TYPE_DIAGONAL_KNOWN ∧
    (publishNavPVT K svc { m with hAcc := 2000, vAcc := 3000 }).fix.position_covariance =
      [4, 0, 0, 0, 4, 0, 0, 0, 9] := by
  refine ⟨?_, rfl, ?_⟩
  · simp only [publishNavPVT, List.replicate, List.set, sq]
  · simp only [publishNavPVT, List.replicate, List.set]
    norm_num

/-- C7: the velocity covariance published by `publishNavPVT` is the row-major
6x6 matrix whose entries 0, 7 and 14 are (sAcc/1000)^2, whose entry 21 (row 3,
column 3) is -1, which is not 0, and whose other entries are zero. -/
theorem C7_velocity_covariance (K : NavPVTConsts) (svc : Int) (m : NavPVT) :
    (publishNavPVT K svc m).velocity.covariance =
      [((m.sAcc : ℚ) / 1000) ^ 2, 0, 0, 0, 0, 0,
       0, ((m.sAcc : ℚ) / 1000) ^ 2, 0, 0, 0, 0,
       0, 0, ((m.sAcc : ℚ) / 1000) ^ 2, 0, 0, 0,
       0, 0, 0, -1, 0, 0,
       0, 0, 0, 0, 0, 0,
       0, 0, 0, 0, 0, 0] ∧
    (publishNavPVT K svc m).velocity.covariance.get? 21 = some (-1) ∧
    (publishNavPVT K svc m).velocity.covariance.get? 21 ≠ some 0 := by
  have hc : ((m.sAcc : ℚ) * 1e-3) ^ 2 = ((m.sAcc : ℚ) / 1000) ^ 2 := by
    norm_num
    ring
  have hl : (publishNavPVT K svc m).velocity.covariance =
      [((m.sAcc : ℚ) / 1000) ^ 2, 0, 0, 0, 0, 0,
       0, ((m.sAcc : ℚ) / 1000) ^ 2, 0, 0, 0, 0,
       0, 0, ((m.sAcc : ℚ) / 1000) ^ 2, 0, 0, 0,
       0, 0, 0, -1, 0, 0,
       0, 0, 0, 0, 0, 0,
       0, 0, 0, 0, 0, 0] := by
    simp only [publishNavPVT, hc]
    rfl
  refine ⟨hl, ?_, ?_⟩
  · rw [hl]; rfl
  · rw [hl]
    intro h
    have h2 : (-1 : ℚ) = 0 := Option.some.inj h
    norm_num at h2

/-! ## Theorems about `pollMessages` -/

/-- C8: on the `n`-th timer tick the identifier in `payload[0]` is
`n % 32 + 1`, hence in [1, 32] and cycling 1, 2, ..., 32, 1, ...; this holds
for every content of the `enabled` map at every tick; the almanac and the
ephemeris poll of a tick both carry that one identifier and the HUI poll
carries none. -/
theorem C8_poll_identifier (enabled : Nat → String → Bool) (n : Nat) :
    payloadAtTick enabled n = n % 32 + 1 ∧
    1 ≤ payloadAtTick enabled n ∧ payloadAtTick enabled n ≤ 32 ∧
    payloadAtTick enabled (n + 1) =
      (if payloadAtTick enabled n = 32 then 1 else payloadAtTick enabled n + 1) ∧
    pollsAtTick enabled n =
      (if enabled n "aid_alm" then [{ msg := AidMessage.ALM, payload := [n % 32 + 1] }]
        else []) ++
      (if enabled n "aid_eph" then [{ msg := AidMessage.EPH, payload := [n % 32 + 1] }]
        else []) ++
      (if enabled n "aid_hui" then [{ msg := AidMessage.HUI, payload := [] }] else []) := by
  have key : ∀ k, payloadAtTick enabled k = k % 32 + 1 := by
    intro k
    induction k with
    | zero => rfl
    | succ k ih =>
      simp only [payloadAtTick, pollMessages, ih]
      split <;> omega
  refine ⟨key n, ?_, ?_, ?_, ?_⟩
  · rw [key]; omega
  · rw [key]; omega
  · rw [key, key]
    split <;> omega
  · simp only [pollsAtTick, pollMessages, key]

/-! ## The device pattern -/

theorem dropLit_eq_some (lit s r : List Char) : dropLit lit s = some r ↔ s = lit ++ r := by
  induction lit generalizing s with
  | nil => simp [dropLit, eq_comm]
  | cons a lit ih =>
    cases s with
    | nil => simp [dropLit]
    | cons c s =>
      by_cases hac : a = c
      · simp [dropLit, hac, ih]
      · simp [dropLit, hac]
        intro h
        exact absurd h.symm hac

theorem matchHostPort_sound (l host port : List Char) (h : matchHostPort l = some (host, port)) :
    l = host ++ ':' :: port ∧ host ≠ [] ∧ port ≠ [] ∧ port.all Char.isDigit = true := by
  induction l generalizing host port with
  | nil => simp [matchHostPort] at h
  | cons c rest ih =>
    rw [matchHostPort] at h
    cases hr : matchHostPort rest with
    | some hp =>
      obtain ⟨h1, p1⟩ := hp
      rw [hr] at h
      simp only [Option.some.injEq, Prod.mk.injEq] at h
      obtain ⟨rfl, rfl⟩ := h
      obtain ⟨e, _, hp, hd⟩ := ih h1 p1 hr
      exact ⟨by rw [e]; rfl, by simp, hp, hd⟩
    | none =>
      rw [hr] at h
      cases rest with
      | nil => simp [matchOneCharHost] at h
      | cons d p =>
        simp only [matchOneCharHost] at h
        split at h
        · rename_i hc
          simp only [Option.some.injEq, Prod.mk.injEq] at h
          obtain ⟨rfl, rfl⟩ := h
          obtain ⟨rfl, hp, hd⟩ := hc
          exact ⟨rfl, by simp, hp, hd⟩
        · simp at h

theorem matchHostPort_complete (host port : List Char) (hh : host ≠ []) (hp : port ≠ [])
    (hd : port.all Char.isDigit = true) :
    matchHostPort (host ++ ':' :: port) = some (host, port) := by
  induction host with
  | nil => exact absurd rfl hh
  | cons c t ih =>
    by_cases ht : t = []
    · subst ht
      have hnone : matchHostPort (':' :: port) = none := by
        cases hm : matchHostPort (':' :: port) with
        | none => rfl
        | some hp2 =>
          obtain ⟨h2, p2⟩ := hp2
          obtain ⟨e, hne, _, _⟩ := matchHostPort_sound _ _ _ hm
          cases h2 with
          | nil => exact absurd rfl hne
          | cons x t2 =>
            simp only [List.cons_append, List.cons.injEq] at e
            have hmem : ':' ∈ port := by rw [e.2]; simp
            have := (List.all_eq_true.mp hd) ':' hmem
            exact absurd this (by decide)
      simp only [List.nil_append, List.cons_append]
      rw [matchHostPort, hnone]
      simp [matchOneCharHost, hp, hd]
    · have := ih ht
      simp only [List.cons_append]
      rw [matchHostPort, this]

theorem matchProto_tcp_udp_none (device : List Char)
    (h : ∃ r, device = "udp://".toList ++ r) : matchProto "tcp" device = none := by
  obtain ⟨r, rfl⟩ := h
  rfl

end ublox

namespace ublox

theorem dropLit_append (lit r : List Char) : dropLit lit (lit ++ r) = some r :=
  (dropLit_eq_some lit (lit ++ r) r).mpr rfl

theorem matchProto_complete (scheme device host port : String)
    (h : IsNetworkAddress scheme device host port) :
    matchProto scheme device.toList = some (scheme, host, port) := by
  obtain ⟨hd, hh, hp, hdig⟩ := h
  have hh2 : host.toList ≠ [] := fun hc => hh (String.ext hc)
  have hp2 : port.toList ≠ [] := fun hc => hp (String.ext hc)
  have hlist : device.toList =
      scheme.toList ++ ("://".toList ++ (host.toList ++ ':' :: port.toList)) := by
    rw [hd]
    simp [String.toList, String.data_append]
  unfold matchProto
  rw [hlist, dropLit_append]
  simp only
  rw [dropLit_append]
  simp only
  rw [matchHostPort_complete _ _ hh2 hp2 hdig]
  rfl

theorem matchProto_sound (scheme : String) (device : String) (pr host port : String)
    (h : matchProto scheme device.toList = some (pr, host, port)) :
    pr = scheme ∧ IsNetworkAddress scheme device host port := by
  unfold matchProto at h
  cases h1 : dropLit scheme.toList device.toList with
  | none => rw [h1] at h; simp at h
  | some r1 =>
    rw [h1] at h
    simp only at h
    cases h2 : dropLit "://".toList r1 with
    | none => rw [h2] at h; simp at h
    | some r2 =>
      rw [h2] at h
      simp only at h
      cases h3 : matchHostPort r2 with
      | none => rw [h3] at h; simp at h
      | some hp =>
        obtain ⟨hl, pl⟩ := hp
        rw [h3] at h
        simp only [Option.some.injEq, Prod.mk.injEq] at h
        obtain ⟨rfl, rfl, rfl⟩ := h
        obtain ⟨e3, hne, pne, hdig⟩ := matchHostPort_sound _ _ _ h3
        have e1 := (dropLit_eq_some _ _ _).mp h1
        have e2 := (dropLit_eq_some _ _ _).mp h2
        refine ⟨rfl, ?_, ?_, ?_, hdig⟩
        · apply String.ext
          simp only [String.data_append]
          show device.toList = _
          rw [e1, e2, e3]
          simp [String.toList]
        · intro hc
          exact hne (congrArg String.toList hc)
        · intro hc
          exact pne (congrArg String.toList hc)

theorem regexMatchDevice_tcp (device host port : String)
    (h : IsNetworkAddress "tcp" device host port) :
    regexMatchDevice device = some ("tcp", host, port) := by
  unfold regexMatchDevice
  rw [matchProto_complete _ _ _ _ h]

theorem regexMatchDevice_udp (device host port : String)
    (h : IsNetworkAddress "udp" device host port) :
    regexMatchDevice device = some ("udp", host, port) := by
  have htcp : matchProto "tcp" device.toList = none := by
    apply matchProto_tcp_udp_none
    refine ⟨host.toList ++ ':' :: port.toList, ?_⟩
    rw [h.1]
    simp [String.toList, String.data_append]
  unfold regexMatchDevice
  rw [htcp]
  simp only
  exact matchProto_complete _ _ _ _ h

theorem regexMatchDevice_sound (device pr host port : String)
    (h : regexMatchDevice device = some (pr, host, port)) :
    (pr = "tcp" ∨ pr = "udp") ∧ IsNetworkAddress pr device host port := by
  unfold regexMatchDevice at h
  cases ht : matchProto "tcp" device.toList with
  | some m =>
    rw [ht] at h
    simp only [Option.some.injEq] at h
    subst h
    obtain ⟨e, hn⟩ := matchProto_sound _ _ _ _ _ ht
    exact ⟨Or.inl e, e ▸ hn⟩
  | none =>
    rw [ht] at h
    simp only at h
    obtain ⟨e, hn⟩ := matchProto_sound _ _ _ _ _ h
    exact ⟨Or.inr e, e ▸ hn⟩

theorem regexMatchDevice_eq_none_iff (device : String) :
    regexMatchDevice device = none ↔ ¬ MatchesNetworkPattern device := by
  constructor
  · rintro hnone ⟨scheme, host, port, hs, hn⟩
    rcases hs with rfl | rfl
    · rw [regexMatchDevice_tcp _ _ _ hn] at hnone
      exact absurd hnone (by simp)
    · rw [regexMatchDevice_udp _ _ _ hn] at hnone
      exact absurd hnone (by simp)
  · intro hno
    cases hm : regexMatchDevice device with
    | none => rfl
    | some m =>
      obtain ⟨pr, host, port⟩ := m
      obtain ⟨hs, hn⟩ := regexMatchDevice_sound _ _ _ _ hm
      exact absurd ⟨pr, host, port, hs, hn⟩ hno

/-! ## Which actions each part of `main` performs -/

theorem subscribeIf_all (p : Action → Bool) (hsub : ∀ m r, p (Action.subscribe m r) = true)
    (enabled : String → Bool) (name message : String) (rate : Nat) :
    (subscribeIf enabled name message rate).all p = true := by
  unfold subscribeIf
  split <;> simp [hsub]

theorem registerConsumers_all (p : Action → Bool)
    (hsub : ∀ m r, p (Action.subscribe m r) = true) (htimer : p Action.createTimer = true)
    (hspin : p Action.spin = true) (P : Params) : (registerConsumers P).2.all p = true := by
  simp only [registerConsumers, List.all_append, subscribeIf_all p hsub, List.all_cons,
    List.all_nil, htimer, hspin, Bool.and_self]

theorem orThrow_all (p : Action → Bool) (a : Action) (ok : Bool) (rest : List Action × Bool)
    (ha : p a = true) (hrest : rest.1.all p = true) : (orThrow a ok rest).1.all p = true := by
  unfold orThrow
  split <;> simp [ha, hrest]

theorem configureGnss_all_isRequest (K : GnssConsts) (P : Params) (W : World) :
    (configureGnss K P W).1.all Action.isRequest = true := by
  unfold configureGnss
  split
  · split
    · rfl
    · exact orThrow_all _ _ _ _ rfl (orThrow_all _ _ _ _ rfl rfl)
  · split
    · split
      · rfl
      · exact orThrow_all _ _ _ _ rfl (orThrow_all _ _ _ _ rfl rfl)
    · rfl

theorem applySettings_all_isRequest (K : GnssConsts) (P : Params) (W : World) (S : Settings) :
    (applySettings K P W S).1.all Action.isRequest = true := by
  unfold applySettings
  split
  · exact orThrow_all _ _ _ _ rfl (orThrow_all _ _ _ _ rfl (orThrow_all _ _ _ _ rfl
      (orThrow_all _ _ _ _ rfl (orThrow_all _ _ _ _ rfl (orThrow_all _ _ _ _ rfl
        (configureGnss_all_isRequest K P W))))))
  · rfl

theorem openTransport_all_isTransport (P : Params) (W : World) :
    (openTransport P W).1.all Action.isTransport = true := by
  unfold openTransport
  split
  · split
    · split
      · split <;> rfl
      · rfl
    · rfl
  · split <;> rfl

theorem filter_eq_self_of_all {p : Action → Bool} {l : List Action} (h : l.all p = true) :
    l.filter p = l :=
  List.filter_eq_self.mpr (fun a ha => List.all_eq_true.mp h a ha)

theorem filter_eq_nil_of_all_not {p q : Action → Bool} {l : List Action}
    (h : l.all q = true) (hpq : ∀ a, q a = true → p a = false) : l.filter p = [] :=
  List.filter_eq_nil_iff.mpr (fun a ha => by
    have := hpq a (List.all_eq_true.mp h a ha)
    simp [this])

theorem isRequest_not_isTransport (a : Action) (h : a.isRequest = true) :
    a.isTransport = false := by
  cases a <;> first | rfl | exact absurd h (by simp [Action.isRequest, Action.isTransport])

theorem isTransport_not_isRequest (a : Action) (h : a.isTransport = true) :
    a.isRequest = false := by
  cases a <;> first | rfl | exact absurd h (by simp [Action.isRequest, Action.isTransport])

theorem isTransport_not_isConsumer (a : Action) (h : a.isTransport = true) :
    a.isConsumer = false := by
  cases a <;> first | rfl | exact absurd h (by simp [Action.isRequest, Action.isTransport])

theorem isRequest_not_isConsumer (a : Action) (h : a.isRequest = true) :
    a.isConsumer = false := by
  cases a <;> first | rfl | exact absurd h (by simp [Action.isRequest, Action.isTransport])

/-- The actions of a run of `main` that got past the parameter checks and the
transport selection. -/
theorem main_actions (K : GnssConsts) (P : Params) (W : World) (S : Settings)
    (hS : checkSettings P W = Except.ok S) (hT : (openTransport P W).2 = none) :
    main K P W =
      { exitCode := 0
        error := none
        actions := (openTransport P W).1 ++ (applySettings K P W S).1 ++
          (if (applySettings K P W S).2 then (registerConsumers P).2 else []) ++
          (if W.isInitialized then [Action.close] else [])
        setup_ok := (applySettings K P W S).2 } := by
  unfold main
  rw [hS]
  simp only
  cases hO : openTransport P W with
  | mk tr err =>
    rw [hO] at hT
    simp only at hT
    subst hT
    rfl

/-- A run of `main` that ends in the transport selection. -/
theorem main_transport_error (K : GnssConsts) (P : Params) (W : World) (S : Settings)
    (e : StartupError) (hS : checkSettings P W = Except.ok S)
    (hT : (openTransport P W).2 = some e) :
    main K P W =
      { exitCode := 1, error := some e, actions := (openTransport P W).1, setup_ok := true } := by
  unfold main
  rw [hS]
  simp only
  cases hO : openTransport P W with
  | mk tr err =>
    rw [hO] at hT
    simp only at hT
    subst hT
    rfl

/-- A run of `main` that ends in the parameter checks. -/
theorem main_settings_error (K : GnssConsts) (P : Params) (W : World) (e : StartupError)
    (hS : checkSettings P W = Except.error e) :
    main K P W = { exitCode := 1, error := some e, actions := [], setup_ok := true } := by
  unfold main
  rw [hS]

/-- The transport actions of a run that passed the parameter checks are those
of the transport selection. -/
theorem main_filter_isTransport (K : GnssConsts) (P : Params) (W : World) (S : Settings)
    (hS : checkSettings P W = Except.ok S) :
    (main K P W).actions.filter Action.isTransport = (openTransport P W).1 := by
  cases hT : (openTransport P W).2 with
  | some e =>
    rw [main_transport_error K P W S e hS hT]
    exact filter_eq_self_of_all (openTransport_all_isTransport P W)
  | none =>
    rw [main_actions K P W S hS hT]
    simp only [List.filter_append]
    rw [filter_eq_self_of_all (openTransport_all_isTransport P W),
      filter_eq_nil_of_all_not (applySettings_all_isRequest K P W S) isRequest_not_isTransport]
    have h3 : (if (applySettings K P W S).2 = true then (registerConsumers P).2 else []).filter
        Action.isTransport = [] := by
      split
      · exact filter_eq_nil_of_all_not
          (registerConsumers_all (fun a => !a.isTransport) (fun _ _ => rfl) rfl rfl P)
          (fun a h => by simpa using h)
      · rfl
    have h4 : (if W.isInitialized = true then [Action.close] else []).filter
        Action.isTransport = [] := by
      split <;> rfl
    rw [h3, h4]
    simp

/-- The receiver requests of a run that reached the `try` block are those of
`applySettings`. -/
theorem main_filter_isRequest (K : GnssConsts) (P : Params) (W : World) (S : Settings)
    (hS : checkSettings P W = Except.ok S) (hT : (openTransport P W).2 = none) :
    (main K P W).actions.filter Action.isRequest = (applySettings K P W S).1 := by
  rw [main_actions K P W S hS hT]
  simp only [List.filter_append]
  rw [filter_eq_self_of_all (applySettings_all_isRequest K P W S),
    filter_eq_nil_of_all_not (openTransport_all_isTransport P W) isTransport_not_isRequest]
  have h3 : (if (applySettings K P W S).2 = true then (registerConsumers P).2 else []).filter
      Action.isRequest = [] := by
    split
    · exact filter_eq_nil_of_all_not
        (registerConsumers_all (fun a => !a.isRequest) (fun _ _ => rfl) rfl rfl P)
        (fun a h => by simpa using h)
    · rfl
  have h4 : (if W.isInitialized = true then [Action.close] else []).filter
      Action.isRequest = [] := by
    split <;> rfl
  rw [h3, h4]
  simp

/-- A run that does not reach the `try` block sends no request. -/
theorem main_filter_isRequest_of_error (K : GnssConsts) (P : Params) (W : World)
    (h : (main K P W).exitCode ≠ 0) :
    (main K P W).actions.filter Action.isRequest = [] := by
  cases hS : checkSettings P W with
  | error e => rw [main_settings_error K P W e hS]; rfl
  | ok S =>
    cases hT : (openTransport P W).2 with
    | some e =>
      rw [main_transport_error K P W S e hS hT]
      exact filter_eq_nil_of_all_not (openTransport_all_isTransport P W)
        isTransport_not_isRequest
    | none =>
      rw [main_actions K P W S hS hT] at h
      exact absurd rfl h

/-! ## The sequencer of the specification -/

theorem issueUntilFatal_prefix (W : World) (l : List Action) :
    (issueUntilFatal W l).1 <+: l := by
  induction l with
  | nil => exact List.prefix_refl _
  | cons a rest ih =>
    unfold issueUntilFatal
    split
    · exact (List.prefix_cons_inj a).mpr ih
    · exact ⟨rest, rfl⟩

theorem issueUntilFatal_ok_iff (W : World) (l : List Action) :
    (issueUntilFatal W l).2 = true ↔
      ∀ a ∈ l, a ≠ Action.pollMonVER → W.answer a = true := by
  induction l with
  | nil => simp [issueUntilFatal]
  | cons a rest ih =>
    unfold issueUntilFatal
    split
    · rename_i h
      simp only [ih, List.mem_cons, forall_eq_or_imp]
      constructor
      · intro hr
        refine ⟨fun hne => ?_, hr⟩
        rcases h with h | h
        · exact absurd h hne
        · exact h
      · exact fun hr => hr.2
    · rename_i h
      simp only [List.mem_cons, forall_eq_or_imp]
      constructor
      · intro hc
        exact absurd hc (by simp)
      · intro hr
        exact absurd (Or.inr (hr.1 (fun hc => h (Or.inl hc)))) h

theorem issueUntilFatal_of_ok (W : World) (l : List Action)
    (h : (issueUntilFatal W l).2 = true) : (issueUntilFatal W l).1 = l := by
  induction l with
  | nil => rfl
  | cons a rest ih =>
    unfold issueUntilFatal at h ⊢
    split
    · rename_i hc
      rw [if_pos hc] at h
      simp only [ih h]
    · rename_i hc
      rw [if_neg hc] at h
      exact absurd h (by simp)

theorem issueUntilFatal_of_failed (W : World) (l : List Action)
    (h : (issueUntilFatal W l).2 = false) :
    ∃ before failed, (issueUntilFatal W l).1 = before ++ [failed] ∧
      failed ≠ Action.pollMonVER ∧ W.answer failed = false ∧
      ∀ b ∈ before, b = Action.pollMonVER ∨ W.answer b = true := by
  induction l with
  | nil => simp [issueUntilFatal] at h
  | cons a rest ih =>
    unfold issueUntilFatal at h ⊢
    split
    · rename_i hc
      rw [if_pos hc] at h
      obtain ⟨before, failed, e, h1, h2, h3⟩ := ih h
      refine ⟨a :: before, failed, by simp only [e, List.cons_append], h1, h2, ?_⟩
      intro b hb
      rcases List.mem_cons.mp hb with rfl | hb
      · exact hc
      · exact h3 b hb
    · rename_i hc
      refine ⟨[], a, rfl, fun e => hc (Or.inl e), ?_, by simp⟩
      cases hw : W.answer a with
      | false => rfl
      | true => exact absurd (Or.inr hw) hc

theorem issueUntilFatal_cons_identity (W : World) (rest : List Action) :
    issueUntilFatal W (Action.pollMonVER :: rest) =
      orThrow Action.pollMonVER true (issueUntilFatal W rest) := by
  simp [issueUntilFatal, orThrow]

theorem issueUntilFatal_cons_fatal (W : World) (a : Action) (rest : List Action)
    (ha : a ≠ Action.pollMonVER) :
    issueUntilFatal W (a :: rest) = orThrow a (W.answer a) (issueUntilFatal W rest) := by
  simp [issueUntilFatal, orThrow, ha]

theorem applySettings_eq_issueUntilFatal (K : GnssConsts) (P : Params) (W : World)
    (S : Settings) (hinit : W.isInitialized = true) :
    applySettings K P W S = issueUntilFatal W (handshakeOrder K P W S) := by
  have hg : configureGnss K P W = issueUntilFatal W (constellationRequests K P W) := by
    unfold configureGnss constellationRequests
    split
    · cases hr : W.pollCfgGNSS with
      | none => simp [issueUntilFatal, World.answer, hr]
      | some rd =>
        simp only [issueUntilFatal, World.answer, orThrow, hr]
        cases hw : W.configure (cfgGNSSWrite7 K P rd) <;> simp
    · split
      · cases hr : W.pollCfgGNSS with
        | none => simp [issueUntilFatal, World.answer, hr]
        | some rd =>
          simp only [issueUntilFatal, World.answer, orThrow, hr]
          cases hw : W.configure (cfgGNSSWrite8 K P rd) <;> simp
      · rfl
  unfold applySettings handshakeOrder
  rw [if_pos hinit, hg]
  simp only [List.cons_append, List.nil_append]
  rw [issueUntilFatal_cons_identity,
    issueUntilFatal_cons_fatal W _ _ (by simp),
    issueUntilFatal_cons_fatal W _ _ (by simp),
    issueUntilFatal_cons_fatal W _ _ (by simp),
    issueUntilFatal_cons_fatal W _ _ (by simp),
    issueUntilFatal_cons_fatal W _ _ (by simp)]
  rfl

/-! ## Theorems about the startup handshake -/

/-- C2: in a run of `main` that reaches the handshake with an initialised
`Gps` object, the requests issued are the fixed order (identity poll,
measurement rate, PPP flag, dynamic model, fix mode, dead-reckoning limit,
constellation read and write) cut after the first failed request other than
the identity poll; the answer to the identity poll changes nothing; when
setup fails the last request issued is the first one that failed and no
subscription and no poll timer is registered; setup succeeds exactly when
every request of the order other than the identity poll succeeds, and then
the whole order has been issued. -/
theorem C2_handshake_sequencing (K : GnssConsts) (P : Params) (W : World) (S : Settings)
    (hS : checkSettings P W = Except.ok S) (hT : (openTransport P W).2 = none)
    (hinit : W.isInitialized = true) :
    (main K P W).actions.filter Action.isRequest =
        (issueUntilFatal W (handshakeOrder K P W S)).1 ∧
    (main K P W).actions.filter Action.isRequest <+: handshakeOrder K P W S ∧
    (∀ b : Bool, main K P { W with pollMonVER := b } = main K P W) ∧
    ((main K P W).setup_ok = false →
        (∃ before failed,
          (main K P W).actions.filter Action.isRequest = before ++ [failed] ∧
          failed ≠ Action.pollMonVER ∧ W.answer failed = false ∧
          ∀ b ∈ before, b = Action.pollMonVER ∨ W.answer b = true) ∧
        (main K P W).actions.filter Action.isConsumer = []) ∧
    ((main K P W).setup_ok = true ↔
        ∀ a ∈ handshakeOrder K P W S, a ≠ Action.pollMonVER → W.answer a = true) ∧
    ((main K P W).setup_ok = true →
        (main K P W).actions.filter Action.isRequest = handshakeOrder K P W S) := by
  have hreq := main_filter_isRequest K P W S hS hT
  have hspec := applySettings_eq_issueUntilFatal K P W S hinit
  have hok : (main K P W).setup_ok = (issueUntilFatal W (handshakeOrder K P W S)).2 := by
    rw [main_actions K P W S hS hT, hspec]
  rw [hreq, hok, hspec]
  refine ⟨rfl, issueUntilFatal_prefix _ _, fun b => rfl, ?_, issueUntilFatal_ok_iff _ _,
    issueUntilFatal_of_ok _ _⟩
  intro hfail
  refine ⟨issueUntilFatal_of_failed _ _ hfail, ?_⟩
  rw [main_actions K P W S hS hT, hspec, hfail]
  simp only [List.filter_append, Bool.false_eq_true, if_false, List.filter_nil,
    List.append_nil]
  rw [filter_eq_nil_of_all_not (openTransport_all_isTransport P W) isTransport_not_isConsumer,
    ← hspec,
    filter_eq_nil_of_all_not (applySettings_all_isRequest K P W S) isRequest_not_isConsumer]
  split <;> rfl

/-- C2 exercised on a run in which the identity poll and the fix-mode request
fail: the requests stop at the fix-mode request and nothing is registered. -/
theorem C2_handshake_sequencing_witness :
    (main exampleGnssConsts exampleParams fixModeFailsWorld).actions.filter Action.isRequest =
        [Action.pollMonVER, Action.setMeasRate 250, Action.setPPPEnabled false,
         Action.setDynamicModel 0, Action.setFixMode 3] ∧
    (main exampleGnssConsts exampleParams fixModeFailsWorld).actions.filter
        Action.isConsumer = [] := by
  have h := C2_handshake_sequencing exampleGnssConsts exampleParams fixModeFailsWorld
    exampleSettings rfl rfl rfl
  refine ⟨h.1.trans (by decide), (h.2.2.2.1 ?_).2⟩
  decide

/-! ## Theorems about the parameter checks and the transport selection -/

theorem openTransport_error_cases (P : Params) (W : World) (e : StartupError)
    (h : (openTransport P W).2 = some e) :
    e = StartupError.couldNotResolve ∨ e = StartupError.couldNotConnect ∨
      e = StartupError.unsupportedProtocol ∨ e = StartupError.couldNotOpenSerial := by
  unfold openTransport at h
  split at h
  · split at h
    · split at h
      · split at h
        · simp at h
        · simp only [Option.some.injEq] at h
          exact Or.inr (Or.inl h.symm)
      · simp only [Option.some.injEq] at h
        exact Or.inl h.symm
    · simp only [Option.some.injEq] at h
      exact Or.inr (Or.inr (Or.inl h.symm))
  · split at h
    · simp at h
    · simp only [Option.some.injEq] at h
      exact Or.inr (Or.inr (Or.inr h.symm))

theorem checkSettings_of_valid (P : Params) (W : World) (hr : 0 < P.rate)
    (hd0 : 0 ≤ P.dr_limit) (hd1 : P.dr_limit ≤ 255) :
    checkSettings P W = Except.error StartupError.invalidSettings ∨
      ∃ dmodel fmode, W.modelFromString P.dynamic_model = some dmodel ∧
        W.fixModeFromString P.fix_mode = some fmode ∧
        checkSettings P W =
          Except.ok { meas_rate := Int.tdiv 1000 P.rate, dmodel := dmodel, fmode := fmode } := by
  unfold checkSettings
  rw [if_neg (not_le.mpr hr), if_neg (by omega)]
  cases hm : W.modelFromString P.dynamic_model with
  | none => exact Or.inl rfl
  | some dmodel =>
    cases hf : W.fixModeFromString P.fix_mode with
    | none => exact Or.inl rfl
    | some fmode => exact Or.inr ⟨dmodel, fmode, rfl, rfl, rfl⟩

/-- C9: a configuration with `rate <= 0`, or with `rate > 0` and `dr_limit`
outside [0, 255], makes `main` return 1 without performing any action: no
name resolution, connect, serial open or receiver request.  A configuration
with `rate > 0` and `dr_limit` in [0, 255] is rejected by neither of the two
checks, and passes the parameter checks when its two enumeration strings
parse. -/
theorem C9_parameter_checks (K : GnssConsts) (P : Params) (W : World) :
    (P.rate ≤ 0 →
        (main K P W).exitCode = 1 ∧ (main K P W).actions = [] ∧
        (main K P W).error = some StartupError.invalidRate) ∧
    (0 < P.rate → (P.dr_limit < 0 ∨ 255 < P.dr_limit) →
        (main K P W).exitCode = 1 ∧ (main K P W).actions = [] ∧
        (main K P W).error = some StartupError.invalidDrLimit) ∧
    (0 < P.rate → 0 ≤ P.dr_limit → P.dr_limit ≤ 255 →
        (main K P W).error ≠ some StartupError.invalidRate ∧
        (main K P W).error ≠ some StartupError.invalidDrLimit ∧
        ∀ dmodel fmode, W.modelFromString P.dynamic_model = some dmodel →
          W.fixModeFromString P.fix_mode = some fmode →
          checkSettings P W =
            Except.ok { meas_rate := Int.tdiv 1000 P.rate, dmodel := dmodel, fmode := fmode }) := by
  refine ⟨?_, ?_, ?_⟩
  · intro hr
    have hS : checkSettings P W = Except.error StartupError.invalidRate := by
      unfold checkSettings
      rw [if_pos hr]
    rw [main_settings_error K P W _ hS]
    exact ⟨rfl, rfl, rfl⟩
  · intro hr hd
    have hS : checkSettings P W = Except.error StartupError.invalidDrLimit := by
      unfold checkSettings
      rw [if_neg (not_le.mpr hr)]
      simp only
      rw [if_pos (by omega)]
    rw [main_settings_error K P W _ hS]
    exact ⟨rfl, rfl, rfl⟩
  · intro hr hd0 hd1
    have herr : ∀ e, (main K P W).error = some e →
        e ≠ StartupError.invalidRate ∧ e ≠ StartupError.invalidDrLimit := by
      intro e he
      rcases checkSettings_of_valid P W hr hd0 hd1 with hS | ⟨dmodel, fmode, _, _, hS⟩
      · rw [main_settings_error K P W _ hS] at he
        simp only [Option.some.injEq] at he
        subst he
        exact ⟨by decide, by decide⟩
      · cases hT : (openTransport P W).2 with
        | none =>
          rw [main_actions K P W _ hS hT] at he
          simp at he
        | some e2 =>
          rw [main_transport_error K P W _ e2 hS hT] at he
          simp only [Option.some.injEq] at he
          subst he
          rcases openTransport_error_cases P W e2 hT with h | h | h | h <;> subst h <;>
            exact ⟨by decide, by decide⟩
    refine ⟨fun h => (herr _ h).1 rfl, fun h => (herr _ h).2 rfl, ?_⟩
    intro dmodel fmode hm hf
    unfold checkSettings
    rw [if_neg (not_le.mpr hr), if_neg (by omega), hm, hf]

/-- C9 exercised on `rate = 0`, on `dr_limit = 256` and `dr_limit = -1`, and on
the default parameters. -/
theorem C9_parameter_checks_witness :
    ((main exampleGnssConsts { exampleParams with rate := 0 } exampleWorld).exitCode = 1 ∧
      (main exampleGnssConsts { exampleParams with rate := 0 } exampleWorld).actions = []) ∧
    ((main exampleGnssConsts { exampleParams with dr_limit := 256 } exampleWorld).exitCode = 1 ∧
      (main exampleGnssConsts { exampleParams with dr_limit := 256 } exampleWorld).actions = []) ∧
    ((main exampleGnssConsts { exampleParams with dr_limit := -1 } exampleWorld).exitCode = 1 ∧
      (main exampleGnssConsts { exampleParams with dr_limit := -1 } exampleWorld).actions = []) ∧
    checkSettings exampleParams exampleWorld = Except.ok exampleSettings := by
  refine ⟨?_, ?_, ?_, ?_⟩
  · have h := (C9_parameter_checks exampleGnssConsts { exampleParams with rate := 0 }
      exampleWorld).1 (by decide)
    exact ⟨h.1, h.2.1⟩
  · have h := (C9_parameter_checks exampleGnssConsts { exampleParams with dr_limit := 256 }
      exampleWorld).2.1 (by decide) (by decide)
    exact ⟨h.1, h.2.1⟩
  · have h := (C9_parameter_checks exampleGnssConsts { exampleParams with dr_limit := -1 }
      exampleWorld).2.1 (by decide) (by decide)
    exact ⟨h.1, h.2.1⟩
  · exact ((C9_parameter_checks exampleGnssConsts exampleParams exampleWorld).2.2
      (by decide) (by decide) (by decide)).2.2 0 3 rfl rfl

/-- C10 as stated fails on `udp://gps`: the string starts with `udp://`, does
not match the pattern (it has no port), and `main` opens it as a serial device
and runs on to exit code 0 instead of rejecting it. -/
theorem C10_udp_without_port_counterexample :
    udpNoPortParams.device = "udp://" ++ "gps" ∧
    checkSettings udpNoPortParams exampleWorld = Except.ok exampleSettings ∧
    (main exampleGnssConsts udpNoPortParams exampleWorld).actions.filter Action.isTransport =
      [Action.openSerial "udp://gps", Action.setBaudrate 9600, Action.initGps] ∧
    (main exampleGnssConsts udpNoPortParams exampleWorld).exitCode = 0 ∧
    (main exampleGnssConsts udpNoPortParams exampleWorld).error = none := by
  refine ⟨by decide, rfl, by decide, by decide, by decide⟩

/-- C10, amended: for a device string that passed the parameter checks, a
string of the form `tcp://host:port` (host non-empty, port one or more digits)
takes the network path, resolve then connect; a string that does not match
`scheme://host:port` with scheme `tcp` or `udp` is opened as a serial device;
a string of the form `udp://host:port` is rejected as an unsupported protocol
with exit code 1 and no action at all. -/
theorem C10_transport_selection (K : GnssConsts) (P : Params) (W : World) (S : Settings)
    (hS : checkSettings P W = Except.ok S) :
    (∀ host port, IsNetworkAddress "tcp" P.device host port →
        (main K P W).actions.filter Action.isTransport =
          Action.resolve host port ::
            (if W.resolve host port then
              Action.connect host port ::
                (if W.connect host port then [Action.initGps] else [])
             else [])) ∧
    (¬ MatchesNetworkPattern P.device →
        (main K P W).actions.filter Action.isTransport =
          Action.openSerial P.device ::
            (if W.openSerial P.device then [Action.setBaudrate P.baudrate, Action.initGps]
             else [])) ∧
    (∀ host port, IsNetworkAddress "udp" P.device host port →
        (main K P W).exitCode = 1 ∧
        (main K P W).error = some StartupError.unsupportedProtocol ∧
        (main K P W).actions = []) := by
  refine ⟨?_, ?_, ?_⟩
  · intro host port h
    rw [main_filter_isTransport K P W S hS]
    unfold openTransport
    rw [regexMatchDevice_tcp _ _ _ h]
    simp only [if_true]
    split
    · split <;> rfl
    · rfl
  · intro h
    rw [main_filter_isTransport K P W S hS]
    unfold openTransport
    rw [(regexMatchDevice_eq_none_iff _).mpr h]
    simp only
    split <;> rfl
  · intro host port h
    have hT : openTransport P W = ([], some StartupError.unsupportedProtocol) := by
      unfold openTransport
      rw [regexMatchDevice_udp _ _ _ h]
      simp only
      rw [if_neg (by decide)]
    rw [main_transport_error K P W S _ hS (by rw [hT]), hT]
    exact ⟨rfl, rfl, rfl⟩

/-- C10 exercised on a TCP address, on the default serial device and on a UDP
address. -/
theorem C10_transport_selection_witness :
    (main exampleGnssConsts tcpParams exampleWorld).actions.filter Action.isTransport =
      [Action.resolve "192.168.0.7" "2101", Action.connect "192.168.0.7" "2101",
       Action.initGps] ∧
    (main exampleGnssConsts exampleParams exampleWorld).actions.filter Action.isTransport =
      [Action.openSerial "/dev/ttyACM0", Action.setBaudrate 9600, Action.initGps] ∧
    (main exampleGnssConsts udpParams exampleWorld).exitCode = 1 ∧
    (main exampleGnssConsts udpParams exampleWorld).actions = [] := by
  refine ⟨?_, ?_, ?_⟩
  · exact (C10_transport_selection exampleGnssConsts tcpParams exampleWorld exampleSettings
      rfl).1 "192.168.0.7" "2101" ⟨by decide, by decide, by decide, by decide⟩
  · exact (C10_transport_selection exampleGnssConsts exampleParams exampleWorld
      exampleSettings rfl).2.1
      ((regexMatchDevice_eq_none_iff _).mp (by decide))
  · have h := (C10_transport_selection exampleGnssConsts udpParams exampleWorld
      exampleSettings rfl).2.2 "192.168.0.7" "2101"
      ⟨by decide, by decide, by decide, by decide⟩
    exact ⟨h.1, h.2.2⟩

/-! ## Theorems about the constellation write request -/

theorem applySettings_prefix (K : GnssConsts) (P : Params) (W : World) (S : Settings) :
    (applySettings K P W S).1 <+: handshakeOrder K P W S := by
  cases hinit : W.isInitialized with
  | true =>
    rw [applySettings_eq_issueUntilFatal K P W S hinit]
    exact issueUntilFatal_prefix _ _
  | false =>
    unfold applySettings
    rw [hinit]
    exact List.nil_prefix

theorem filter_isConfigure_eq (l : List Action) :
    l.filter Action.isConfigure = (l.filter Action.isRequest).filter Action.isConfigure := by
  rw [List.filter_filter]
  congr 1
  funext a
  cases a <;> rfl

/-- The requests of any run of `main` are an initial part of the handshake
order, for the settings the run derived (or for any settings, when the run
ended before the handshake). -/
theorem main_requests_prefix (K : GnssConsts) (P : Params) (W : World) :
    ∃ S, (main K P W).actions.filter Action.isRequest <+: handshakeOrder K P W S := by
  cases hS : checkSettings P W with
  | error e =>
    refine ⟨{ meas_rate := 0, dmodel := 0, fmode := 0 }, ?_⟩
    rw [main_settings_error K P W e hS]
    exact List.nil_prefix
  | ok S =>
    refine ⟨S, ?_⟩
    cases hT : (openTransport P W).2 with
    | some e =>
      rw [main_filter_isRequest_of_error K P W (by
        rw [main_transport_error K P W S e hS hT]; exact one_ne_zero)]
      exact List.nil_prefix
    | none =>
      rw [main_filter_isRequest K P W S hS hT]
      exact applySettings_prefix K P W S

/-- Every write request in a run of `main` is the one built from the
read-back configuration for the version of the run. -/
theorem configure_mem_main (K : GnssConsts) (P : Params) (W : World) (c : CfgGNSS)
    (h : Action.configure c ∈ (main K P W).actions) :
    ∃ cfgGNSSRead, W.pollCfgGNSS = some cfgGNSSRead ∧
      ((P.ublox_version = 7 ∧ c = cfgGNSSWrite7 K P cfgGNSSRead) ∨
       (8 ≤ P.ublox_version ∧ c = cfgGNSSWrite8 K P cfgGNSSRead)) := by
  obtain ⟨S, hpre⟩ := main_requests_prefix K P W
  have hmem : Action.configure c ∈ handshakeOrder K P W S :=
    hpre.subset (List.mem_filter.mpr ⟨h, rfl⟩)
  unfold handshakeOrder constellationRequests at hmem
  simp only [List.cons_append, List.nil_append, List.mem_cons, reduceCtorEq, false_or] at hmem
  split at hmem
  · rename_i h7
    cases hr : W.pollCfgGNSS with
    | none => rw [hr] at hmem; simp at hmem
    | some rd =>
      rw [hr] at hmem
      simp only [List.mem_cons, reduceCtorEq, false_or, List.mem_singleton,
        Action.configure.injEq, List.not_mem_nil, or_false] at hmem
      exact ⟨rd, rfl, Or.inl ⟨h7, hmem⟩⟩
  · split at hmem
    · rename_i h8
      cases hr : W.pollCfgGNSS with
      | none => rw [hr] at hmem; simp at hmem
      | some rd =>
        rw [hr] at hmem
        simp only [List.mem_cons, reduceCtorEq, false_or, List.mem_singleton,
          Action.configure.injEq, List.not_mem_nil, or_false] at hmem
        exact ⟨rd, rfl, Or.inr ⟨h8, hmem⟩⟩
    · simp at hmem

theorem constellationRequests_filter_isConfigure_length (K : GnssConsts) (P : Params)
    (W : World) :
    ((constellationRequests K P W).filter Action.isConfigure).length ≤ 1 := by
  unfold constellationRequests
  split
  · cases W.pollCfgGNSS <;> simp [List.filter_cons, Action.isConfigure]
  · split
    · cases W.pollCfgGNSS <;> simp [List.filter_cons, Action.isConfigure]
    · simp

/-- C3: in any run of `main`, a constellation write request has, for
`ublox_version == 7`, exactly one block, with the GLONASS identifier, and
`numConfigBlocks = 1`; for `ublox_version >= 8` exactly seven blocks with the
identifiers GPS, SBAS, Galileo, BeiDou, IMES, QZSS, GLONASS (each once when the
seven identifiers are distinct) and `numConfigBlocks` equal to the number of
blocks; for `ublox_version < 7` neither a read nor a write request is issued.
No run issues more than one write request, and a run with version 7 or above
in which the handshake reaches the write (the earlier requests and the read
succeed) issues exactly one, whatever the toggles and the read-back content. -/
theorem C3_constellation_write (K : GnssConsts) (P : Params) (W : World) :
    (P.ublox_version = 7 → ∀ c, Action.configure c ∈ (main K P W).actions →
        c.blocks.map CfgGNSS_Block.gnssId = [K.GNSS_ID_GLONASS] ∧
        c.blocks.length = 1 ∧ c.numConfigBlocks = 1) ∧
    (8 ≤ P.ublox_version → ∀ c, Action.configure c ∈ (main K P W).actions →
        c.blocks.map CfgGNSS_Block.gnssId = K.ids ∧
        c.blocks.length = 7 ∧ c.numConfigBlocks = c.blocks.length ∧
        (K.ids.Nodup → ∀ id ∈ K.ids, (c.blocks.map CfgGNSS_Block.gnssId).count id = 1)) ∧
    (P.ublox_version < 7 →
        Action.pollCfgGNSS ∉ (main K P W).actions ∧
        ∀ c, Action.configure c ∉ (main K P W).actions) ∧
    ((main K P W).actions.filter Action.isConfigure).length ≤ 1 ∧
    (∀ S cfgGNSSRead, checkSettings P W = Except.ok S → (openTransport P W).2 = none →
        W.isInitialized = true → W.setMeasRate S.meas_rate = true →
        W.setPPPEnabled P.enable_ppp = true → W.setDynamicModel S.dmodel = true →
        W.setFixMode S.fmode = true → W.setDeadReckonLimit P.dr_limit = true →
        W.pollCfgGNSS = some cfgGNSSRead →
        (P.ublox_version = 7 →
          (main K P W).actions.filter Action.isConfigure =
            [Action.configure (cfgGNSSWrite7 K P cfgGNSSRead)]) ∧
        (8 ≤ P.ublox_version →
          (main K P W).actions.filter Action.isConfigure =
            [Action.configure (cfgGNSSWrite8 K P cfgGNSSRead)])) := by
  refine ⟨?_, ?_, ?_, ?_, ?_⟩
  · intro h7 c hc
    obtain ⟨rd, _, hcase⟩ := configure_mem_main K P W c hc
    rcases hcase with ⟨_, rfl⟩ | ⟨h8, _⟩
    · exact ⟨rfl, rfl, rfl⟩
    · omega
  · intro h8 c hc
    obtain ⟨rd, _, hcase⟩ := configure_mem_main K P W c hc
    rcases hcase with ⟨h7, _⟩ | ⟨_, rfl⟩
    · omega
    · refine ⟨rfl, rfl, rfl, ?_⟩
      intro hnd id hid
      exact List.count_eq_one_of_mem hnd hid
  · intro hlt
    refine ⟨?_, ?_⟩
    · intro hmem
      obtain ⟨S, hpre⟩ := main_requests_prefix K P W
      have hm : Action.pollCfgGNSS ∈ handshakeOrder K P W S :=
        hpre.subset (List.mem_filter.mpr ⟨hmem, rfl⟩)
      unfold handshakeOrder constellationRequests at hm
      rw [if_neg (by omega), if_neg (by omega)] at hm
      simp at hm
    · intro c hc
      obtain ⟨rd, _, hcase⟩ := configure_mem_main K P W c hc
      rcases hcase with ⟨h7, _⟩ | ⟨h8, _⟩ <;> omega
  · obtain ⟨S, hpre⟩ := main_requests_prefix K P W
    rw [filter_isConfigure_eq]
    have hp := (List.IsPrefix.filter Action.isConfigure hpre).length_le
    have hh : (handshakeOrder K P W S).filter Action.isConfigure =
        (constellationRequests K P W).filter Action.isConfigure := by
      simp [handshakeOrder, List.filter_cons, Action.isConfigure]
    rw [hh] at hp
    exact le_trans hp (constellationRequests_filter_isConfigure_length K P W)
  · intro S rd hS hT hinit h1 h2 h3 h4 h5 hr
    rw [filter_isConfigure_eq, main_filter_isRequest K P W S hS hT]
    unfold applySettings configureGnss
    simp only [hinit, h1, h2, h3, h4, h5, hr, orThrow, if_true]
    refine ⟨fun h7 => ?_, fun h8 => ?_⟩
    · rw [if_pos h7]
      cases W.configure (cfgGNSSWrite7 K P rd) <;> rfl
    · have h7 : ¬ P.ublox_version = 7 := by omega
      rw [if_neg h7, if_pos h8]
      cases W.configure (cfgGNSSWrite8 K P rd) <;> rfl

/-- C3 exercised on versions 7, 8 and 6 of the example parameters. -/
theorem C3_constellation_write_witness :
    (main exampleGnssConsts version7Params exampleWorld).actions.filter Action.isConfigure =
      [Action.configure (cfgGNSSWrite7 exampleGnssConsts version7Params exampleRead)] ∧
    (main exampleGnssConsts exampleParams exampleWorld).actions.filter Action.isConfigure =
      [Action.configure (cfgGNSSWrite8 exampleGnssConsts exampleParams exampleRead)] ∧
    (cfgGNSSWrite7 exampleGnssConsts version7Params exampleRead).blocks.map
      CfgGNSS_Block.gnssId = [6] ∧
    (cfgGNSSWrite8 exampleGnssConsts exampleParams exampleRead).blocks.map
      CfgGNSS_Block.gnssId = [0, 1, 2, 3, 4, 5, 6] ∧
    ((cfgGNSSWrite8 exampleGnssConsts exampleParams exampleRead).blocks.map
      CfgGNSS_Block.gnssId).count 5 = 1 ∧
    Action.pollCfgGNSS ∉ (main exampleGnssConsts version6Params exampleWorld).actions := by
  have h7 := C3_constellation_write exampleGnssConsts version7Params exampleWorld
  have h8 := C3_constellation_write exampleGnssConsts exampleParams exampleWorld
  have h6 := C3_constellation_write exampleGnssConsts version6Params exampleWorld
  refine ⟨?_, ?_, ?_, ?_, ?_, ?_⟩
  · exact (h7.2.2.2.2 exampleSettings exampleRead rfl rfl rfl rfl rfl rfl rfl rfl rfl).1
      (by decide)
  · exact (h8.2.2.2.2 exampleSettings exampleRead rfl rfl rfl rfl rfl rfl rfl rfl rfl).2
      (by decide)
  · exact (h7.1 (by decide) _ (by decide)).1
  · exact (h8.2.1 (by decide) _ (by decide)).1
  · exact (h8.2.1 (by decide) _ (by decide)).2.2.2 (by decide) 5 (by decide)
  · exact (h6.2.2.1 (by decide)).1

theorem int_mod_two_eq_one_iff_bodd (n : Int) : n % 2 = 1 ↔ n.bodd = true := by
  have h := Int.bodd_add_div2 n
  cases hb : n.bodd with
  | true => rw [hb] at h; simp only [cond_true] at h; constructor <;> intro <;> first | rfl | omega
  | false => rw [hb] at h; simp only [cond_false] at h; constructor <;> intro hc
             · omega
             · exact absurd hc (by decide)

theorem int_bodd_lor (a m : Int) : (Int.lor a m).bodd = (a.bodd || m.bodd) := by
  have h := Int.lor_bit a.bodd a.div2 m.bodd m.div2
  rw [Int.bit_decomp, Int.bit_decomp] at h
  rw [h, Int.bodd_bit]

/-- Bit 0 of the combined value is set exactly when the toggle is true or bit
0 of the mask is set. -/
theorem toggleOrMask_bit0 (toggle : Bool) (mask : Int) :
    toggleOrMask toggle mask % 2 = 1 ↔ (toggle = true ∨ mask % 2 = 1) := by
  have h1 : toggleOrMask toggle mask % 2 = 1 ↔
      (Int.lor (if toggle then 1 else 0) mask) % 2 = 1 := by
    unfold toggleOrMask
    generalize Int.lor (if toggle then 1 else 0) mask = x
    omega
  rw [h1, int_mod_two_eq_one_iff_bodd, int_bodd_lor, int_mod_two_eq_one_iff_bodd]
  cases toggle <;> simp

theorem flagsOfConst_eq_toggleOrMask (enable : Bool) (sigCfg : Nat) :
    flagsOfConst enable sigCfg = toggleOrMask enable (sigCfg : Int) := by
  unfold flagsOfConst toggleOrMask
  have h : Int.lor (if enable then 1 else 0) (sigCfg : Int) =
      ((enable.toNat ||| sigCfg : Nat) : Int) := by
    cases enable <;> rfl
  rw [h]
  omega

theorem flagsOfInt_eq_toggleOrMask (enable : Bool) (sigCfg : Int) :
    flagsOfInt enable sigCfg = toggleOrMask enable sigCfg := by
  unfold flagsOfInt toggleOrMask
  cases enable <;> rfl

/-- C4 as stated fails for QZSS: with `enable_qzss` false and the odd mask
`qzss_sig_cfg = 1` the QZSS block written by `main` has bit 0 of `flags` set. -/
theorem C4_qzss_enable_bit_counterexample :
    qzssOddParams.enable_qzss = false ∧
    ∃ c b, Action.configure c ∈ (main exampleGnssConsts qzssOddParams exampleWorld).actions ∧
      b ∈ c.blocks ∧ b.gnssId = exampleGnssConsts.GNSS_ID_QZSS ∧ b.flags % 2 = 1 := by
  refine ⟨rfl, cfgGNSSWrite8 exampleGnssConsts qzssOddParams exampleRead,
    { gnssId := 5, resTrkCh := 0, maxTrkCh := 3, reserved1 := 0, flags := 1 }, ?_, ?_, rfl, rfl⟩
  · decide
  · decide

/-- C4, amended: in every constellation write request of `main` each block
carries, next to its identifier, the bitwise-or of its enable toggle (as 0 or
1) with its signal-configuration mask, stored as `uint32`: the GLONASS block
for version 7, the seven blocks of the table for version 8 and above.  Bit 0
of such a value is set exactly when the toggle is true or bit 0 of the mask is
set; so it equals the toggle whenever bit 0 of the mask is clear. -/
theorem C4_block_flags (K : GnssConsts) (P : Params) (W : World) (c : CfgGNSS)
    (hc : Action.configure c ∈ (main K P W).actions) :
    (P.ublox_version = 7 →
        c.blocks.map (fun b => (b.gnssId, b.flags)) =
          [(K.GNSS_ID_GLONASS,
            toggleOrMask P.enable_glonass (K.SIG_CFG_GLONASS_L1OF : Int))]) ∧
    (8 ≤ P.ublox_version →
        c.blocks.map (fun b => (b.gnssId, b.flags)) =
          (constellationTable K P).map (fun row => (row.1, toggleOrMask row.2.1 row.2.2))) ∧
    (∀ b ∈ c.blocks, ∃ row ∈ constellationTable K P,
        b.gnssId = row.1 ∧ b.flags = toggleOrMask row.2.1 row.2.2 ∧
        (b.flags % 2 = 1 ↔ (row.2.1 = true ∨ row.2.2 % 2 = 1)) ∧
        (row.2.2 % 2 = 0 → (b.flags % 2 = 1 ↔ row.2.1 = true))) := by
  have hbit : ∀ (toggle : Bool) (mask : Int), mask % 2 = 0 →
      (toggleOrMask toggle mask % 2 = 1 ↔ toggle = true) := by
    intro toggle mask hm
    rw [toggleOrMask_bit0]
    constructor
    · rintro (h | h)
      · exact h
      · omega
    · exact Or.inl
  have hrow : ∀ (b : CfgGNSS_Block) (row : Nat × Bool × Int),
      b.gnssId = row.1 → b.flags = toggleOrMask row.2.1 row.2.2 →
      b.gnssId = row.1 ∧ b.flags = toggleOrMask row.2.1 row.2.2 ∧
        (b.flags % 2 = 1 ↔ (row.2.1 = true ∨ row.2.2 % 2 = 1)) ∧
        (row.2.2 % 2 = 0 → (b.flags % 2 = 1 ↔ row.2.1 = true)) := by
    intro b row h1 h2
    refine ⟨h1, h2, ?_, ?_⟩
    · rw [h2]; exact toggleOrMask_bit0 _ _
    · rw [h2]; exact hbit _ _
  obtain ⟨rd, _, hcase⟩ := configure_mem_main K P W c hc
  rcases hcase with ⟨h7, rfl⟩ | ⟨h8, rfl⟩
  · refine ⟨fun _ => ?_, fun h => by omega, ?_⟩
    · simp only [cfgGNSSWrite7, List.map, flagsOfConst_eq_toggleOrMask]
    · intro b hb
      simp only [cfgGNSSWrite7, List.mem_singleton] at hb
      subst hb
      exact ⟨(K.GNSS_ID_GLONASS, P.enable_glonass, (K.SIG_CFG_GLONASS_L1OF : Int)),
        by simp [constellationTable],
        hrow _ _ rfl (flagsOfConst_eq_toggleOrMask _ _)⟩
  · refine ⟨fun h => by omega, fun _ => ?_, ?_⟩
    · simp only [cfgGNSSWrite8, constellationTable, List.map, flagsOfConst_eq_toggleOrMask,
        flagsOfInt_eq_toggleOrMask]
    · intro b hb
      simp only [cfgGNSSWrite8, List.mem_cons, List.mem_singleton, List.not_mem_nil,
        or_false] at hb
      rcases hb with rfl | rfl | rfl | rfl | rfl | rfl | rfl
      · exact ⟨(K.GNSS_ID_GPS, P.enable_gps, (K.SIG_CFG_GPS_L1CA : Int)),
          by simp [constellationTable], hrow _ _ rfl (flagsOfConst_eq_toggleOrMask _ _)⟩
      · exact ⟨(K.GNSS_ID_SBAS, P.enable_sbas, (K.SIG_CFG_SBAS_L1CA : Int)),
          by simp [constellationTable], hrow _ _ rfl (flagsOfConst_eq_toggleOrMask _ _)⟩
      · exact ⟨(K.GNSS_ID_GALILEO, P.enable_galileo, (K.SIG_CFG_GALILEO_E1OS : Int)),
          by simp [constellationTable], hrow _ _ rfl (flagsOfConst_eq_toggleOrMask _ _)⟩
      · exact ⟨(K.GNSS_ID_BEIDOU, P.enable_beidou, (K.SIG_CFG_BEIDOU_B1I : Int)),
          by simp [constellationTable], hrow _ _ rfl (flagsOfConst_eq_toggleOrMask _ _)⟩
      · exact ⟨(K.GNSS_ID_IMES, P.enable_imes, (K.SIG_CFG_IMES_L1 : Int)),
          by simp [constellationTable], hrow _ _ rfl (flagsOfConst_eq_toggleOrMask _ _)⟩
      · exact ⟨(K.GNSS_ID_QZSS, P.enable_qzss, P.qzss_sig_cfg),
          by simp [constellationTable], hrow _ _ rfl (flagsOfInt_eq_toggleOrMask _ _)⟩
      · exact ⟨(K.GNSS_ID_GLONASS, P.enable_glonass, (K.SIG_CFG_GLONASS_L1OF : Int)),
          by simp [constellationTable], hrow _ _ rfl (flagsOfConst_eq_toggleOrMask _ _)⟩

/-- C4 exercised on the write request of the example run: GPS enabled, the
others disabled, all masks 0x010000. -/
theorem C4_block_flags_witness :
    (cfgGNSSWrite8 exampleGnssConsts exampleParams exampleRead).blocks.map
        (fun b => (b.gnssId, b.flags)) =
      [(0, 65537), (1, 65536), (2, 65536), (3, 65536), (4, 65536), (5, 65536), (6, 65536)] := by
  have h := (C4_block_flags exampleGnssConsts exampleParams exampleWorld
    (cfgGNSSWrite8 exampleGnssConsts exampleParams exampleRead) (by decide)).2.1 (by decide)
  rw [h]
  decide

/-! ## Theorems about `fix_diagnostic` -/

/-- The level and the message `fix_diagnostic` leaves in the status, as one
case distinction on the fix-type code. -/
theorem fix_diagnostic_level_message (K : NavStatusConsts) (last_nav_pos : NavPVT)
    (stat : DiagnosticStatusWrapper) :
    ((fix_diagnostic K last_nav_pos stat).level, (fix_diagnostic K last_nav_pos stat).message) =
      if last_nav_pos.fixType = K.GPS_NO_FIX then (DiagnosticLevel.ERROR, "No fix")
      else if last_nav_pos.fixType = K.GPS_DEAD_RECKONING_ONLY then
        (DiagnosticLevel.WARN, "Dead reckoning only")
      else if last_nav_pos.fixType = K.GPS_2D_FIX then (DiagnosticLevel.OK, "2D fix")
      else if last_nav_pos.fixType = K.GPS_3D_FIX then (DiagnosticLevel.OK, "3D fix")
      else if last_nav_pos.fixType = K.GPS_GPS_DEAD_RECKONING_COMBINED then
        (DiagnosticLevel.OK, "GPS and dead reckoning combined")
      else if last_nav_pos.fixType = K.GPS_TIME_ONLY_FIX then
        (DiagnosticLevel.WARN, "Time fix only")
      else (stat.level, stat.message) := by
  unfold fix_diagnostic
  simp only
  split_ifs <;> rfl

/-- C11: with pairwise distinct fix-type codes, `fix_diagnostic` sets the
level ERROR for no fix, WARN for dead-reckoning-only and for time-only fix, OK
for 2D fix, 3D fix and combined GPS and dead reckoning; for a fix-type code
that is none of the six it leaves the level and the message of the status it
was given unchanged. -/
theorem C11_fix_diagnostic (K : NavStatusConsts) (last_nav_pos : NavPVT)
    (stat : DiagnosticStatusWrapper) (hK : K.codes.Nodup) :
    (last_nav_pos.fixType = K.GPS_NO_FIX →
        (fix_diagnostic K last_nav_pos stat).level = DiagnosticLevel.ERROR) ∧
    (last_nav_pos.fixType = K.GPS_DEAD_RECKONING_ONLY →
        (fix_diagnostic K last_nav_pos stat).level = DiagnosticLevel.WARN) ∧
    (last_nav_pos.fixType = K.GPS_TIME_ONLY_FIX →
        (fix_diagnostic K last_nav_pos stat).level = DiagnosticLevel.WARN) ∧
    (last_nav_pos.fixType = K.GPS_2D_FIX →
        (fix_diagnostic K last_nav_pos stat).level = DiagnosticLevel.OK) ∧
    (last_nav_pos.fixType = K.GPS_3D_FIX →
        (fix_diagnostic K last_nav_pos stat).level = DiagnosticLevel.OK) ∧
    (last_nav_pos.fixType = K.GPS_GPS_DEAD_RECKONING_COMBINED →
        (fix_diagnostic K last_nav_pos stat).level = DiagnosticLevel.OK) ∧
    (last_nav_pos.fixType ∉ K.codes →
        (fix_diagnostic K last_nav_pos stat).level = stat.level ∧
        (fix_diagnostic K last_nav_pos stat).message = stat.message) := by
  have hlm := fix_diagnostic_level_message K last_nav_pos stat
  have hl : (fix_diagnostic K last_nav_pos stat).level =
      ((fix_diagnostic K last_nav_pos stat).level,
        (fix_diagnostic K last_nav_pos stat).message).1 := rfl
  have hm : (fix_diagnostic K last_nav_pos stat).message =
      ((fix_diagnostic K last_nav_pos stat).level,
        (fix_diagnostic K last_nav_pos stat).message).2 := rfl
  rw [hl, hm, hlm]
  simp only [NavStatusConsts.codes, List.nodup_cons, List.mem_cons, List.mem_singleton,
    List.not_mem_nil, or_false, not_or, List.nodup_nil, and_true] at hK
  obtain ⟨⟨h01, h02, h03, h04, h05⟩, ⟨h12, h13, h14, h15⟩, ⟨h23, h24, h25⟩, ⟨h34, h35⟩,
    h45, _⟩ := hK
  refine ⟨?_, ?_, ?_, ?_, ?_, ?_, ?_⟩
  · intro h
    rw [if_pos h]
  · intro h
    rw [if_neg (h ▸ Ne.symm h01), if_pos h]
  · intro h
    rw [if_neg (h ▸ Ne.symm h05), if_neg (h ▸ Ne.symm h15), if_neg (h ▸ Ne.symm h25),
      if_neg (h ▸ Ne.symm h35), if_neg (h ▸ Ne.symm h45), if_pos h]
  · intro h
    rw [if_neg (h ▸ Ne.symm h02), if_neg (h ▸ Ne.symm h12), if_pos h]
  · intro h
    rw [if_neg (h ▸ Ne.symm h03), if_neg (h ▸ Ne.symm h13), if_neg (h ▸ Ne.symm h23),
      if_pos h]
  · intro h
    rw [if_neg (h ▸ Ne.symm h04), if_neg (h ▸ Ne.symm h14), if_neg (h ▸ Ne.symm h24),
      if_neg (h ▸ Ne.symm h34), if_pos h]
  · intro h
    simp only [NavStatusConsts.codes, List.mem_cons, List.mem_singleton, List.not_mem_nil,
      or_false, not_or] at h
    obtain ⟨n0, n1, n2, n3, n4, n5⟩ := h
    rw [if_neg n0, if_neg n1, if_neg n2, if_neg n3, if_neg n4, if_neg n5]
    exact ⟨rfl, rfl⟩

/-- C11 exercised on the protocol's codes 0 to 5 and on the code 6. -/
theorem C11_fix_diagnostic_witness :
    (fix_diagnostic exampleStatusConsts { exampleRecord with fixType := 0 } exampleStat).level =
      DiagnosticLevel.ERROR ∧
    (fix_diagnostic exampleStatusConsts { exampleRecord with fixType := 1 } exampleStat).level =
      DiagnosticLevel.WARN ∧
    (fix_diagnostic exampleStatusConsts { exampleRecord with fixType := 5 } exampleStat).level =
      DiagnosticLevel.WARN ∧
    (fix_diagnostic exampleStatusConsts { exampleRecord with fixType := 2 } exampleStat).level =
      DiagnosticLevel.OK ∧
    (fix_diagnostic exampleStatusConsts { exampleRecord with fixType := 3 } exampleStat).level =
      DiagnosticLevel.OK ∧
    (fix_diagnostic exampleStatusConsts { exampleRecord with fixType := 4 } exampleStat).level =
      DiagnosticLevel.OK ∧
    (fix_diagnostic exampleStatusConsts { exampleRecord with fixType := 6 } exampleStat).level =
      DiagnosticLevel.STALE ∧
    (fix_diagnostic exampleStatusConsts { exampleRecord with fixType := 6 } exampleStat).message =
      "untouched" := by
  have hK : exampleStatusConsts.codes.Nodup := by decide
  refine ⟨?_, ?_, ?_, ?_, ?_, ?_, ?_⟩
  · exact (C11_fix_diagnostic exampleStatusConsts _ exampleStat hK).1 rfl
  · exact (C11_fix_diagnostic exampleStatusConsts _ exampleStat hK).2.1 rfl
  · exact (C11_fix_diagnostic exampleStatusConsts _ exampleStat hK).2.2.1 rfl
  · exact (C11_fix_diagnostic exampleStatusConsts _ exampleStat hK).2.2.2.1 rfl
  · exact (C11_fix_diagnostic exampleStatusConsts _ exampleStat hK).2.2.2.2.1 rfl
  · exact (C11_fix_diagnostic exampleStatusConsts _ exampleStat hK).2.2.2.2.2.1 rfl
  · exact (C11_fix_diagnostic exampleStatusConsts { exampleRecord with fixType := 6 }
      exampleStat hK).2.2.2.2.2.2 (by decide)

/-! ## Theorems about the measurement interval and the diagnostics setup -/

/-- The settings that pass the parameter checks carry the truncated quotient
and come from a positive rate. -/
theorem checkSettings_ok (P : Params) (W : World) (S : Settings)
    (hS : checkSettings P W = Except.ok S) :
    0 < P.rate ∧ S.meas_rate = Int.tdiv 1000 P.rate := by
  unfold checkSettings at hS
  split at hS
  · simp at hS
  · rename_i hr
    simp only at hS
    split at hS
    · simp at hS
    · split at hS
      · simp at hS
      · split at hS
        · simp at hS
        · simp only [Except.ok.injEq] at hS
          subst hS
          exact ⟨not_le.mp hr, rfl⟩

/-- The requests of a run that passed the parameter checks are an initial part
of the handshake order for the settings of that run. -/
theorem main_requests_initial (K : GnssConsts) (P : Params) (W : World) (S : Settings)
    (hS : checkSettings P W = Except.ok S) :
    (main K P W).actions.filter Action.isRequest <+: handshakeOrder K P W S := by
  cases hT : (openTransport P W).2 with
  | some e =>
    rw [main_filter_isRequest_of_error K P W (by
      rw [main_transport_error K P W S e hS hT]; exact one_ne_zero)]
    exact List.nil_prefix
  | none =>
    rw [main_filter_isRequest K P W S hS hT]
    exact applySettings_prefix K P W S

/-- C12 as stated fails at the default rate 4: the interval is 250 ms, half of
it is 0.125 s, and the largest acceptable time-stamp difference `main`
configures is 0.0125 s. -/
theorem C12_timestamp_tolerance_counterexample :
    checkSettings exampleParams exampleWorld = Except.ok exampleSettings ∧
    exampleSettings.meas_rate = 250 ∧
    (topicDiagnostic exampleSettings).time_param.max_acceptable = 1 / 80 ∧
    (topicDiagnostic exampleSettings).time_param.max_acceptable ≠
      ((exampleSettings.meas_rate : ℚ) / 1000) / 2 := by
  refine ⟨rfl, rfl, ?_, ?_⟩
  · simp only [topicDiagnostic, exampleSettings]; norm_num
  · simp only [topicDiagnostic, exampleSettings]; norm_num

/-- C12, amended: for every accepted rate the largest acceptable time-stamp
difference that `main` configures is 0.05 times the measurement interval,
(meas_rate / 1000) * 0.05 seconds, with meas_rate the truncated quotient
1000 / rate, and the smallest acceptable one is 0; it equals half the
interval only when meas_rate is 0. -/
theorem C12_timestamp_tolerance (P : Params) (W : World) (S : Settings)
    (hS : checkSettings P W = Except.ok S) :
    S.meas_rate = Int.tdiv 1000 P.rate ∧
    (topicDiagnostic S).time_param.max_acceptable = ((S.meas_rate : ℚ) / 1000) * (5 / 100) ∧
    (topicDiagnostic S).time_param.min_acceptable = 0 ∧
    ((topicDiagnostic S).time_param.max_acceptable = ((S.meas_rate : ℚ) / 1000) / 2 ↔
      S.meas_rate = 0) := by
  have hmax : (topicDiagnostic S).time_param.max_acceptable =
      ((S.meas_rate : ℚ) / 1000) * (5 / 100) := by
    simp only [topicDiagnostic]
    norm_num
    ring
  refine ⟨(checkSettings_ok P W S hS).2, hmax, rfl, ?_⟩
  rw [hmax]
  constructor
  · intro h
    have h0 : (S.meas_rate : ℚ) = 0 := by linarith
    exact_mod_cast h0
  · intro h
    rw [h]
    norm_num

/-- C12 exercised on the default rate 4 and on the rate 1001. -/
theorem C12_timestamp_tolerance_witness :
    (topicDiagnostic exampleSettings).time_param.max_acceptable = (250 / 1000) * (5 / 100) ∧
    (topicDiagnostic { exampleSettings with meas_rate := 0 }).time_param.max_acceptable =
      (((0 : Int) : ℚ) / 1000) / 2 := by
  refine ⟨?_, ?_⟩
  · have h := (C12_timestamp_tolerance exampleParams exampleWorld exampleSettings rfl).2.1
    rw [h]
    norm_num [exampleSettings]
  · exact (C12_timestamp_tolerance { exampleParams with rate := 1001 } exampleWorld
      { exampleSettings with meas_rate := 0 } rfl).2.2.2.mpr rfl

/-- C13: for every accepted configuration the rate is positive and the
measurement interval is the truncated quotient 1000 / rate (250 for rate 4);
it satisfies meas_rate * rate <= 1000 < (meas_rate + 1) * rate; it is at least
1 exactly when rate <= 1000 and 0 for every rate above 1000; every
`setMeasRate` request of the run carries it, and a run that reaches the
handshake issues that request; it is the divisor of the diagnostics target
frequency 1000.0 / meas_rate, which is therefore a division by zero for every
rate above 1000. -/
theorem C13_measurement_interval (K : GnssConsts) (P : Params) (W : World) (S : Settings)
    (hS : checkSettings P W = Except.ok S) :
    0 < P.rate ∧
    S.meas_rate = Int.tdiv 1000 P.rate ∧
    (P.rate = 4 → S.meas_rate = 250) ∧
    S.meas_rate * P.rate ≤ 1000 ∧ 1000 < (S.meas_rate + 1) * P.rate ∧
    (1 ≤ S.meas_rate ↔ P.rate ≤ 1000) ∧
    (1000 < P.rate → S.meas_rate = 0) ∧
    (∀ ms, Action.setMeasRate ms ∈ (main K P W).actions → ms = S.meas_rate) ∧
    ((openTransport P W).2 = none → W.isInitialized = true →
        Action.setMeasRate S.meas_rate ∈ (main K P W).actions) ∧
    (topicDiagnostic S).target_freq = divDouble 1000 (S.meas_rate : ℚ) ∧
    (1000 < P.rate → (topicDiagnostic S).target_freq = none) ∧
    (P.rate ≤ 1000 → (topicDiagnostic S).target_freq = some (1000 / (S.meas_rate : ℚ))) := by
  obtain ⟨hr, hm⟩ := checkSettings_ok P W S hS
  have hq : S.meas_rate = 1000 / P.rate := by
    rw [hm]
    exact Int.tdiv_eq_ediv (by decide) (le_of_lt hr)
  have hle : S.meas_rate * P.rate ≤ 1000 := by
    rw [hq]
    exact Int.ediv_mul_le 1000 (ne_of_gt hr)
  have hlt : 1000 < (S.meas_rate + 1) * P.rate := by
    rw [hq]
    exact Int.lt_ediv_add_one_mul_self 1000 hr
  have hone : 1 ≤ S.meas_rate ↔ P.rate ≤ 1000 := by
    rw [hq, Int.le_ediv_iff_mul_le hr, one_mul]
  have hnonneg : 0 ≤ S.meas_rate := by
    rw [hq]
    exact Int.ediv_nonneg (by decide) (le_of_lt hr)
  have hzero : 1000 < P.rate → S.meas_rate = 0 := by
    intro h
    have : ¬ 1 ≤ S.meas_rate := fun hc => absurd (hone.mp hc) (not_le.mpr h)
    omega
  have htf : (topicDiagnostic S).target_freq = divDouble 1000 (S.meas_rate : ℚ) := by
    simp only [topicDiagnostic]
    norm_num
  refine ⟨hr, hm, ?_, hle, hlt, hone, hzero, ?_, ?_, htf, ?_, ?_⟩
  · intro h4
    rw [hm, h4]
    rfl
  · intro ms hmem
    have hin : Action.setMeasRate ms ∈ handshakeOrder K P W S :=
      (main_requests_initial K P W S hS).subset (List.mem_filter.mpr ⟨hmem, rfl⟩)
    unfold handshakeOrder constellationRequests at hin
    simp only [List.cons_append, List.nil_append, List.mem_cons, reduceCtorEq, false_or,
      Action.setMeasRate.injEq] at hin
    rcases hin with h | h
    · exact h
    · split at h
      · cases hrd : W.pollCfgGNSS <;> rw [hrd] at h <;> simp at h
      · split at h
        · cases hrd : W.pollCfgGNSS <;> rw [hrd] at h <;> simp at h
        · simp at h
  · intro hT hinit
    have hreq := main_filter_isRequest K P W S hS hT
    have hin : Action.setMeasRate S.meas_rate ∈ (applySettings K P W S).1 := by
      unfold applySettings
      rw [if_pos hinit]
      unfold orThrow
      simp only [if_true]
      split <;> simp
    rw [← hreq] at hin
    exact (List.mem_filter.mp hin).1
  · intro h
    rw [htf, hzero h]
    simp [divDouble]
  · intro h
    have hpos : 1 ≤ S.meas_rate := hone.mpr h
    have hne : (S.meas_rate : ℚ) ≠ 0 := by
      have : S.meas_rate ≠ 0 := by omega
      exact_mod_cast this
    rw [htf]
    simp [divDouble, hne]

/-- C13 exercised on the default rate 4 and on the rate 1001. -/
theorem C13_measurement_interval_witness :
    exampleSettings.meas_rate = 250 ∧
    Action.setMeasRate 250 ∈ (main exampleGnssConsts exampleParams exampleWorld).actions ∧
    (topicDiagnostic { exampleSettings with meas_rate := 0 }).target_freq = none := by
  have h4 := C13_measurement_interval exampleGnssConsts exampleParams exampleWorld
    exampleSettings rfl
  have h1001 := C13_measurement_interval exampleGnssConsts { exampleParams with rate := 1001 }
    exampleWorld { exampleSettings with meas_rate := 0 } rfl
  exact ⟨h4.2.2.1 rfl, h4.2.2.2.2.2.2.2.2.1 rfl rfl, h1001.2.2.2.2.2.2.2.2.2.2.1 (by decide)⟩

end ublox
